import Mathlib

/-!
Verification of the semantic-layer query compiler: a shallow embedding of
`semantic_layer/ast_builder.py`, `schemas.py`, `query_builder.py`,
`validator.py`, `query_patterns.py` and `orchestrator.py`, together with
theorems settling the behavioural claims about filter rendering, WHERE-clause
assembly, join construction, validation, pattern optimization and the
diagnostic workflow.
-/

namespace ConvAI

/-! ## Python string primitives, modelled on `List Char`.

The source manipulates Python strings with `replace`, `in`, `upper`, `lower`,
`strip`, `split`, `startswith`, `endswith`, slicing and `join`.  Each is
embedded as a structurally recursive function on the character list so that
concrete evaluation stays kernel-friendly.  Only ASCII matters here (all SQL
fragments and configuration names are ASCII). -/

def squote : Char := '\''

/-- `s.replace("'", "''")` restricted to the single-quote pattern used by
`Literal.to_sql`. -/
def escapeQuotesAux : List Char → List Char
  | [] => []
  | c :: rest =>
    if c = squote then squote :: squote :: escapeQuotesAux rest
    else c :: escapeQuotesAux rest

def escapeQuotes (s : String) : String := String.mk (escapeQuotesAux s.data)

def isPrefixList : List Char → List Char → Bool
  | [], _ => true
  | _ :: _, [] => false
  | p :: ps, c :: cs => p == c && isPrefixList ps cs

/-- Python's `pat in s` substring test. -/
def occursInAux (pat : List Char) : List Char → Bool
  | [] => isPrefixList pat []
  | c :: cs => isPrefixList pat (c :: cs) || occursInAux pat cs

def occursIn (s pat : String) : Bool := occursInAux pat.data s.data

def charUpper (c : Char) : Char := if c.isLower then Char.ofNat (c.toNat - 32) else c

def charLower (c : Char) : Char := if c.isUpper then Char.ofNat (c.toNat + 32) else c

/-- Python `str.upper()` (ASCII case mapping suffices for the SQL text). -/
def strUpper (s : String) : String := String.mk (s.data.map charUpper)

/-- Python `str.lower()`. -/
def strLower (s : String) : String := String.mk (s.data.map charLower)

def isSpaceChar (c : Char) : Bool := c == ' ' || c == '\t' || c == '\n' || c == '\r'

/-- Python `str.strip()`. -/
def pyStrip (s : String) : String :=
  String.mk (((s.data.dropWhile isSpaceChar).reverse.dropWhile isSpaceChar).reverse)

/-- Python `sep.join(parts)`. -/
def joinSep (sep : String) : List String → String
  | [] => ""
  | [x] => x
  | x :: y :: rest => x ++ sep ++ joinSep sep (y :: rest)

def strStartsWith (s pre : String) : Bool := isPrefixList pre.data s.data

def strEndsWith (s suf : String) : Bool := isPrefixList suf.data.reverse s.data.reverse

/-- Python slicing `s[n:]`. -/
def strDrop (s : String) (n : Nat) : String := String.mk (s.data.drop n)

/-- Python slicing `s[:-n]`. -/
def strDropRight (s : String) (n : Nat) : String := String.mk ((s.data.reverse.drop n).reverse)

/-- Python `s.split()` (split on whitespace runs, dropping empty pieces). -/
def pySplitWs (s : String) : List String :=
  ((s.data.splitOnP isSpaceChar).filter (fun l => ¬ l.isEmpty)).map String.mk

/-! ## Values (`Any` in `Filter.values` / `Literal.value`)

The source stores filter and literal values dynamically typed; only strings,
integers, booleans and `None` flow through the compiler. -/

inductive PyVal where
  | s (v : String)
  | i (v : Int)
  | b (v : Bool)
  | null
deriving DecidableEq, Repr

/-! ## AST node library (`ast_builder.py`) -/

/-- `Literal.to_sql`: strings single-quoted with each embedded quote doubled,
`NULL` for `None`, `TRUE`/`FALSE` for booleans, `str(value)` otherwise.  The
constructors of `PyVal` are disjoint, so the `isinstance` dispatch order of
the source is preserved exactly. -/
def Literal.toSql : PyVal → String
  | .s v => "'" ++ escapeQuotes v ++ "'"
  | .null => "NULL"
  | .b true => "TRUE"
  | .b false => "FALSE"
  | .i v => toString v

/-- Expressions: `ColumnRef`, `Literal`, a list of literals (the `right` of an
`IN` `BinaryExpr`), and `BinaryExpr` itself (whose `left`/`right` are a union
of those shapes in the source). -/
inductive SqlExpr where
  | col (column : String) (table : Option String) (alias_ : Option String)
  | lit (value : PyVal)
  | litList (values : List PyVal)
  | bin (left : SqlExpr) (operator : String) (right : SqlExpr)
deriving DecidableEq, Repr

/-- `ColumnRef.to_sql` / `Literal.to_sql` / `BinaryExpr.to_sql`.  A `litList`
on the right of `bin` renders as the parenthesized comma-joined tuple, exactly
the `isinstance(self.right, list)` branch of `BinaryExpr.to_sql`. -/
def SqlExpr.toSql : SqlExpr → String
  | .col column table alias_ =>
    let base := match table with
      | some t => t ++ "." ++ column
      | Option.none => column
    (match alias_ with
      | some a => base ++ " AS " ++ a
      | Option.none => base)
  | .lit v => Literal.toSql v
  | .litList vs => "(" ++ joinSep ", " (vs.map Literal.toSql) ++ ")"
  | .bin l op r => l.toSql ++ " " ++ op ++ " " ++ r.toSql

/-- `AggregateExpr.expression : Union[ColumnRef, str]`. -/
inductive AggArg where
  | colRef (c : SqlExpr)
  | raw (s : String)
deriving DecidableEq, Repr

structure AggregateExpr where
  function : String
  expression : AggArg
  distinct : Bool := false
  alias_ : Option String := Option.none
deriving DecidableEq, Repr

def AggregateExpr.toSql (a : AggregateExpr) : String :=
  let distinctStr := if a.distinct then "DISTINCT " else ""
  let exprSql := match a.expression with
    | .colRef c => c.toSql
    | .raw s => s
  let sql := a.function ++ "(" ++ distinctStr ++ exprSql ++ ")"
  match a.alias_ with
  | some al => sql ++ " AS " ++ al
  | Option.none => sql

/-- A `SelectClause` expression: `Union[ColumnRef, AggregateExpr, Literal, str]`. -/
inductive SelectItem where
  | colRef (c : SqlExpr)
  | agg (a : AggregateExpr)
  | lit (v : PyVal)
  | raw (s : String)
deriving DecidableEq, Repr

def SelectItem.toSql : SelectItem → String
  | .colRef c => c.toSql
  | .agg a => a.toSql
  | .lit v => Literal.toSql v
  | .raw s => s

structure SelectClause where
  expressions : List SelectItem
  distinct : Bool := false
deriving DecidableEq, Repr

def SelectClause.toSql (s : SelectClause) : String :=
  (if s.distinct then "SELECT DISTINCT " else "SELECT ")
    ++ joinSep ", " (s.expressions.map SelectItem.toSql)

structure FromClause where
  table : String
  alias_ : Option String := Option.none
deriving DecidableEq, Repr

def FromClause.toSql (f : FromClause) : String :=
  let sql := "FROM " ++ f.table
  match f.alias_ with
  | some a => sql ++ " " ++ a
  | Option.none => sql

structure JoinClause where
  join_type : String
  table : String
  alias_ : Option String := Option.none
  on_condition : Option SqlExpr := Option.none
deriving DecidableEq, Repr

def JoinClause.toSql (j : JoinClause) : String :=
  let sql := j.join_type ++ " JOIN " ++ j.table
  let sql := match j.alias_ with
    | some a => sql ++ " " ++ a
    | Option.none => sql
  match j.on_condition with
  | some c => sql ++ " ON " ++ c.toSql
  | Option.none => sql

/-- `WhereClause.condition : Union[BinaryExpr, List[BinaryExpr]]`.  The query
builder always supplies the list form; a single expression renders exactly as
its one-element list (" AND ".join of one string), so the list form is kept. -/
structure WhereClause where
  condition : List SqlExpr
deriving DecidableEq, Repr

def WhereClause.toSql (w : WhereClause) : String :=
  "WHERE " ++ joinSep " AND " (w.condition.map SqlExpr.toSql)

/-- A `GroupByClause`/`OrderByClause` column: `Union[ColumnRef, str]` (the
`AggregateExpr` alternative of ORDER BY is never constructed by the builder). -/
inductive ColOrRaw where
  | colRef (c : SqlExpr)
  | raw (s : String)
deriving DecidableEq, Repr

def ColOrRaw.toSql : ColOrRaw → String
  | .colRef c => c.toSql
  | .raw s => s

structure GroupByClause where
  columns : List ColOrRaw
deriving DecidableEq, Repr

def GroupByClause.toSql (g : GroupByClause) : String :=
  "GROUP BY " ++ joinSep ", " (g.columns.map ColOrRaw.toSql)

structure OrderByClause where
  columns : List (ColOrRaw × String)
deriving DecidableEq, Repr

def OrderByClause.toSql (o : OrderByClause) : String :=
  "ORDER BY " ++ joinSep ", " (o.columns.map (fun p => p.1.toSql ++ " " ++ p.2))

structure LimitClause where
  limit : Int
  offset : Option Int := Option.none
deriving DecidableEq, Repr

def LimitClause.toSql (l : LimitClause) : String :=
  let sql := "LIMIT " ++ toString l.limit
  match l.offset with
  | some o => if o ≠ 0 then sql ++ " OFFSET " ++ toString o else sql
  | Option.none => sql

/-- The complete `Query` dataclass (`where` is renamed `where_clause`; `where`
is a Lean keyword). -/
structure Query where
  select : SelectClause
  from_clause : FromClause
  joins : List JoinClause := []
  where_clause : Option WhereClause := Option.none
  group_by : Option GroupByClause := Option.none
  having : Option WhereClause := Option.none
  order_by : Option OrderByClause := Option.none
  limit : Option LimitClause := Option.none
deriving DecidableEq, Repr

/-- `Query.to_sql`: clause renderings joined by newlines, absent clauses
skipped. -/
def Query.toSql (q : Query) : String :=
  joinSep "\n"
    ([q.select.toSql, q.from_clause.toSql]
      ++ q.joins.map JoinClause.toSql
      ++ (q.where_clause.map WhereClause.toSql).toList
      ++ (q.group_by.map GroupByClause.toSql).toList
      ++ (q.having.map WhereClause.toSql).toList
      ++ (q.order_by.map OrderByClause.toSql).toList
      ++ (q.limit.map LimitClause.toSql).toList)

def dangerousPatterns : List String :=
  ["DROP ", "DELETE ", "TRUNCATE ", "ALTER ", "CREATE ",
   "GRANT ", "REVOKE ", "--", "/*", "*/"]

/-- `Query.validate`: advisory keyword scan over the uppercased rendering,
then the structural checks.  The `if not self.from_clause` branch can never
fire (a dataclass instance is always truthy) and adds nothing. -/
def Query.validate (q : Query) : List String :=
  let sql := q.toSql
  let warnings := dangerousPatterns.filterMap (fun p =>
    if occursIn (strUpper sql) p then
      some ("Warning: Found potentially dangerous keyword: " ++ p)
    else Option.none)
  let e1 := if q.select.expressions.isEmpty then
    ["SELECT clause must have at least one expression"] else []
  let e2 := if q.group_by.isSome && q.select.expressions.isEmpty then
    ["GROUP BY requires SELECT expressions"] else []
  warnings ++ e1 ++ e2

/-! ## Semantic query schemas (`schemas.py`)

Pydantic models become structures; pydantic defaults become Lean default
field values.  `float` fields (`threshold`, `confidence`) are represented as
rationals; neither is read by any compiler or orchestrator path modelled
here. -/

inductive IntentType where
  | trend
  | comparison
  | ranking
  | diagnostic
  | snapshot
deriving DecidableEq, Repr

structure MetricRequest where
  primary_metric : String
  secondary_metrics : List String := []
  metric_variant : String := "absolute"
deriving DecidableEq, Repr

structure Dimensionality where
  group_by : List String := []
  hierarchy_level : List (String × String) := []
deriving DecidableEq, Repr

structure TimeContext where
  time_dimension : String := "invoice_date"
  window : String := "last_4_weeks"
  grain : String := "day"
  comparison_window : Option String := Option.none
deriving DecidableEq, Repr

structure Filter where
  dimension : String
  operator : String
  values : List PyVal
deriving DecidableEq, Repr

structure Comparison where
  type : String
  baseline : String
  metric_variant : String := "growth"
deriving DecidableEq, Repr

structure Diagnostics where
  enabled : Bool := false
  diagnostic_type : String := "contribution"
  dimensions : List String := []
  threshold : ℚ := 1/20
deriving DecidableEq, Repr

structure Sorting where
  order_by : String
  direction : String := "DESC"
  limit : Option Int := Option.none
deriving DecidableEq, Repr

structure ResultShape where
  format : String := "table"
  chart_type : Option String := Option.none
deriving DecidableEq, Repr

structure SemanticQuery where
  schema_version : String := "1.0"
  intent : IntentType
  metric_request : MetricRequest
  dimensionality : Dimensionality := {}
  time_context : TimeContext := {}
  filters : List Filter := []
  comparison : Option Comparison := Option.none
  diagnostics : Option Diagnostics := Option.none
  sorting : Option Sorting := Option.none
  result_shape : ResultShape := {}
  confidence : ℚ := 0
  original_question : String
deriving DecidableEq, Repr

/-! ## Catalog (`semantic_layer.py`)

`SemanticLayer` loads metrics and dimensions from a YAML configuration that is
not part of the repository, so the catalog is abstracted to its two lookup
functions.  `get_metric` returns a dict with keys `name`, `description`,
`sql`, `table`, `aggregation`, `format` and (on the config-fallback branch)
`filters`; `metric.get('filters', [])` in the builder makes an absent key the
empty list, so `filters` is carried as a plain list field. -/

structure Metric where
  name : String
  description : String := ""
  sql : String
  table : String
  aggregation : String := "sum"
  format : String := "number"
  filters : List String := []
deriving DecidableEq, Repr

structure Dimension where
  name : String
  table : String
  key : String
  attributes : List (String × String) := []
deriving DecidableEq, Repr

structure SemanticLayer where
  getMetric : String → Option Metric
  getDimension : String → Option Dimension

/-! ## AST query builder (`query_builder.py`) -/

/-- `ASTQueryBuilder._resolve_dimension_attribute`: the hardcoded flat mapping
from dimension attribute names to alias-qualified columns. -/
def resolveDimensionAttribute (dim_name : String) : Option String :=
  match dim_name with
  | "date" => some "d.date"
  | "year" => some "d.year"
  | "quarter" => some "d.quarter"
  | "month" => some "d.month"
  | "month_name" => some "d.month_name"
  | "week" => some "d.week"
  | "day_name" => some "d.day_name"
  | "fiscal_year" => some "d.fiscal_year"
  | "fiscal_quarter" => some "d.fiscal_quarter"
  | "fiscal_week" => some "d.fiscal_week"
  | "season" => some "d.season"
  | "brand_name" => some "p.brand_name"
  | "brand_code" => some "p.brand_code"
  | "category_name" => some "p.category_name"
  | "sku_name" => some "p.sku_name"
  | "sku_code" => some "p.sku_code"
  | "pack_size" => some "p.pack_size"
  | "state_name" => some "g.state_name"
  | "zone_name" => some "g.zone_name"
  | "district_name" => some "g.district_name"
  | "town_name" => some "g.town_name"
  | "outlet_name" => some "g.outlet_name"
  | "distributor_name" => some "c.distributor_name"
  | "retailer_name" => some "c.retailer_name"
  | "outlet_type" => some "c.outlet_type"
  | "channel_name" => some "ch.channel_name"
  | _ => Option.none

/-- `ASTQueryBuilder._build_select`: resolved group-by columns (unresolved
names silently skipped), then the primary metric parsed from its SQL template
by prefix sniffing, then the secondary metrics as raw strings. -/
def buildSelect (sl : SemanticLayer) (q : SemanticQuery) (metric : Metric) : SelectClause :=
  let dimExprs := q.dimensionality.group_by.filterMap (fun dim_name =>
    (resolveDimensionAttribute dim_name).map (fun col_name =>
      SelectItem.colRef (SqlExpr.col col_name Option.none (some dim_name))))
  let metric_sql := metric.sql
  let primary := q.metric_request.primary_metric
  let metricExprs :=
    if strStartsWith metric_sql "SUM(" then
      [SelectItem.agg ⟨"SUM", .raw (strDropRight (strDrop metric_sql 4) 1), false, some primary⟩]
    else if strStartsWith metric_sql "COUNT(" then
      [SelectItem.agg ⟨"COUNT", .raw (strDropRight (strDrop metric_sql 6) 1), false, some primary⟩]
    else if strStartsWith metric_sql "AVG(" then
      [SelectItem.agg ⟨"AVG", .raw (strDropRight (strDrop metric_sql 4) 1), false, some primary⟩]
    else
      [SelectItem.raw ("(" ++ metric_sql ++ ") AS " ++ primary)]
  let secondaryExprs := q.metric_request.secondary_metrics.filterMap (fun nm =>
    (sl.getMetric nm).map (fun m => SelectItem.raw ("(" ++ m.sql ++ ") AS " ++ nm)))
  { expressions := dimExprs ++ metricExprs ++ secondaryExprs }

/-- `ASTQueryBuilder._build_from`: the metric's table (first whitespace token
when the configured string embeds join syntax), aliased `f`.  (For an
all-whitespace table string Python's `split()[0]` raises; that edge returns
the string unchanged here.) -/
def buildFrom (metric : Metric) : FromClause :=
  let table_name := metric.table
  let table_name :=
    if occursIn (strUpper table_name) " JOIN " then (pySplitWs table_name).headD table_name
    else table_name
  { table := table_name, alias_ := some "f" }

/-- `ASTQueryBuilder._build_joins`: the dimension-attribute → dimension-table
map.  Note that `season` and `pack_size` are absent here although
`_resolve_dimension_attribute` maps them to `d.season` / `p.pack_size`. -/
def dimensionTable (dim : String) : Option String :=
  match dim with
  | "date" => some "dim_date"
  | "year" => some "dim_date"
  | "quarter" => some "dim_date"
  | "month" => some "dim_date"
  | "month_name" => some "dim_date"
  | "week" => some "dim_date"
  | "day_name" => some "dim_date"
  | "fiscal_year" => some "dim_date"
  | "fiscal_quarter" => some "dim_date"
  | "fiscal_week" => some "dim_date"
  | "brand_name" => some "dim_product"
  | "brand_code" => some "dim_product"
  | "category_name" => some "dim_product"
  | "sku_name" => some "dim_product"
  | "sku_code" => some "dim_product"
  | "state_name" => some "dim_geography"
  | "zone_name" => some "dim_geography"
  | "district_name" => some "dim_geography"
  | "town_name" => some "dim_geography"
  | "outlet_name" => some "dim_geography"
  | "distributor_name" => some "dim_customer"
  | "retailer_name" => some "dim_customer"
  | "outlet_type" => some "dim_customer"
  | "channel_name" => some "dim_channel"
  | _ => Option.none

/-- `ASTQueryBuilder._create_dimension_join`. -/
def createDimensionJoin (table : String) : Option JoinClause :=
  let condition : Option SqlExpr :=
    match table with
    | "dim_date" => some (.bin (.col "date_key" (some "f") Option.none) "="
        (.col "date_key" (some "d") Option.none))
    | "dim_product" => some (.bin (.col "product_key" (some "f") Option.none) "="
        (.col "product_key" (some "p") Option.none))
    | "dim_geography" => some (.bin (.col "geography_key" (some "f") Option.none) "="
        (.col "geography_key" (some "g") Option.none))
    | "dim_customer" => some (.bin (.col "customer_key" (some "f") Option.none) "="
        (.col "customer_key" (some "c") Option.none))
    | "dim_channel" => some (.bin (.col "channel_key" (some "f") Option.none) "="
        (.col "channel_key" (some "ch") Option.none))
    | _ => Option.none
  let alias_ : Option String :=
    match table with
    | "dim_date" => some "d"
    | "dim_product" => some "p"
    | "dim_geography" => some "g"
    | "dim_customer" => some "c"
    | "dim_channel" => some "ch"
    | _ => Option.none
  match condition, alias_ with
  | some c, some a => some { join_type := "LEFT", table := table, alias_ := some a, on_condition := some c }
  | _, _ => Option.none

/-- The deduplicating loop of `_build_joins`: `joined` is the
`joined_tables` set (a table is added only when its join was created). -/
def buildJoinsAux : List String → List String → List JoinClause
  | [], _ => []
  | dim :: rest, joined =>
    match dimensionTable dim with
    | some table =>
      if table ∈ joined then buildJoinsAux rest joined
      else
        match createDimensionJoin table with
        | some j => j :: buildJoinsAux rest (table :: joined)
        | Option.none => buildJoinsAux rest joined
    | Option.none => buildJoinsAux rest joined

def buildJoins (q : SemanticQuery) : List JoinClause :=
  buildJoinsAux q.dimensionality.group_by []

/-- The metric-filter parsing block of `_build_where`: a configured string
with an `=` splits at the first `=`, both sides stripped, the value coerced
(`true`/`false` case-insensitively to booleans, surrounding single quotes
stripped to a string), and becomes `f.col = literal`. -/
def parseMetricFilter (filter_str : String) : Option SqlExpr :=
  if filter_str.data.contains '=' then
    let parts := filter_str.data.splitOn '='
    let col := pyStrip (String.mk (parts.headD []))
    let val_str := pyStrip (String.mk (parts.getD 1 []))
    let val : PyVal :=
      if strLower val_str = "true" then PyVal.b true
      else if strLower val_str = "false" then PyVal.b false
      else if strStartsWith val_str "'" && strEndsWith val_str "'" then
        PyVal.s (strDropRight (strDrop val_str 1) 1)
      else PyVal.s val_str
    some (SqlExpr.bin (SqlExpr.col col (some "f") Option.none) "=" (SqlExpr.lit val))
  else Option.none

/-- `ASTQueryBuilder._build_filter_condition`: `None` when the dimension does
not resolve; an `IN` list of literals for `IN`; otherwise a binary comparison
against `values[0]` (Python raises `IndexError` on an empty value list there,
modelled as the error case). -/
def buildFilterCondition (f : Filter) : Except String (Option SqlExpr) :=
  match resolveDimensionAttribute f.dimension with
  | Option.none => .ok Option.none
  | some col_name =>
    if f.operator = "IN" then
      .ok (some (SqlExpr.bin (SqlExpr.col col_name Option.none Option.none) "IN"
        (SqlExpr.litList f.values)))
    else if f.operator = "=" then
      match f.values with
      | [] => .error "IndexError: list index out of range"
      | v :: _ => .ok (some (SqlExpr.bin (SqlExpr.col col_name Option.none Option.none) "="
          (SqlExpr.lit v)))
    else
      match f.values with
      | [] => .error "IndexError: list index out of range"
      | v :: _ => .ok (some (SqlExpr.bin (SqlExpr.col col_name Option.none Option.none) f.operator
          (SqlExpr.lit v)))

/-- `ASTQueryBuilder._build_time_filter`: the source constructs a local
window → raw-SQL dictionary but then unconditionally returns `None`
("Let semantic_layer handle time filters in WHERE clause"), so no time
predicate is ever produced. -/
def buildTimeFilter (_time_context : TimeContext) : Option SqlExpr :=
  Option.none

/-- The user-filter loop of `_build_where`: conditions in filter order,
`None` results skipped, the first raised error propagated. -/
def buildUserConds : List Filter → Except String (List SqlExpr)
  | [] => .ok []
  | f :: rest =>
    match buildFilterCondition f with
    | .error e => .error e
    | .ok c =>
      match buildUserConds rest with
      | .error e => .error e
      | .ok others =>
        match c with
        | some cond => .ok (cond :: others)
        | Option.none => .ok others

/-- `ASTQueryBuilder._build_where`: metric-level filters, then user filters,
then the (always absent) time condition; `None` when no condition remains. -/
def buildWhere (q : SemanticQuery) (metric : Metric) : Except String (Option WhereClause) :=
  match buildUserConds q.filters with
  | .error e => .error e
  | .ok userConds =>
    let conds := metric.filters.filterMap parseMetricFilter ++ userConds
      ++ (buildTimeFilter q.time_context).toList
    .ok (if conds.isEmpty then Option.none else some { condition := conds })

/-- `ASTQueryBuilder._build_group_by`. -/
def buildGroupBy (q : SemanticQuery) : Option GroupByClause :=
  if q.dimensionality.group_by.isEmpty then Option.none
  else
    let columns := q.dimensionality.group_by.filterMap (fun dim =>
      (resolveDimensionAttribute dim).map (fun col =>
        ColOrRaw.colRef (SqlExpr.col col Option.none Option.none)))
    if columns.isEmpty then Option.none else some { columns := columns }

/-- `ASTQueryBuilder._build_order_by`: a sort target found in `group_by`
resolves to its column (and silently yields no ORDER BY when unresolvable);
any other target is treated as a metric alias and emitted as a raw string. -/
def buildOrderBy (q : SemanticQuery) : Option OrderByClause :=
  match q.sorting with
  | Option.none => Option.none
  | some s =>
    if q.dimensionality.group_by.contains s.order_by then
      match resolveDimensionAttribute s.order_by with
      | some col => some { columns := [(ColOrRaw.colRef (SqlExpr.col col Option.none Option.none), s.direction)] }
      | Option.none => Option.none
    else some { columns := [(ColOrRaw.raw s.order_by, s.direction)] }

/-- `ASTQueryBuilder._build_limit` (`if sorting and sorting.limit:` — a zero
limit is falsy and yields no LIMIT clause). -/
def buildLimit (q : SemanticQuery) : Option LimitClause :=
  match q.sorting with
  | some s =>
    (match s.limit with
      | some l => if l ≠ 0 then some { limit := l } else Option.none
      | Option.none => Option.none)
  | Option.none => Option.none

/-- `ASTQueryBuilder.build_query`: metric resolution, clause assembly, and the
final `validate()` gate that fails on critical (non-`Warning:`) errors. -/
def buildQuery (sl : SemanticLayer) (q : SemanticQuery) : Except String Query :=
  match sl.getMetric q.metric_request.primary_metric with
  | Option.none => .error ("Unknown metric: " ++ q.metric_request.primary_metric)
  | some metric =>
    match buildWhere q metric with
    | .error e => .error e
    | .ok w =>
      let query : Query :=
        { select := buildSelect sl q metric
          from_clause := buildFrom metric
          joins := buildJoins q
          where_clause := w
          group_by := buildGroupBy q
          having := Option.none
          order_by := buildOrderBy q
          limit := buildLimit q }
      let critical := query.validate.filter (fun e => ! strStartsWith e "Warning:")
      if critical.isEmpty then .ok query
      else .error ("Invalid query: " ++ joinSep "; " critical)

/-! ## Validator (`validator.py`) -/

/-- `SemanticValidator._is_valid_dimension_attribute`'s `known_attributes`. -/
def knownAttributes : List String :=
  ["date", "year", "quarter", "month", "month_name", "week", "day_name",
   "fiscal_year", "fiscal_quarter", "fiscal_week", "season",
   "brand_name", "brand_code", "category_name", "sku_name", "sku_code", "pack_size",
   "state_name", "zone_name", "district_name", "town_name", "outlet_name",
   "distributor_name", "retailer_name", "outlet_type",
   "channel_name"]

def isValidDimensionAttribute (dim_name : String) : Bool :=
  knownAttributes.contains dim_name

def validWindows : List String :=
  ["last_4_weeks", "last_6_weeks", "last_12_weeks",
   "mtd", "qtd", "ytd", "this_month", "last_month",
   "this_year", "last_year", "this_quarter", "last_quarter"]

def validOperators : List String :=
  ["=", "IN", "NOT IN", "BETWEEN", ">", "<", ">=", "<="]

/-- The per-filter body of validation check 7: dimension resolves, values
non-empty, operator recognized (errors appended in that order). -/
def validateFilter (f : Filter) : List String :=
  (if isValidDimensionAttribute f.dimension then []
   else ["Invalid filter dimension: " ++ f.dimension])
  ++ (if f.values.isEmpty then ["Filter on " ++ f.dimension ++ " has no values"] else [])
  ++ (if f.operator ∈ validOperators then []
      else ["Invalid filter operator: " ++ f.operator])

/-- Validation check 8: the sort target must be the primary metric or a
selected dimension; a present, non-zero limit (`if sorting.limit:` — zero is
falsy and skips the range check) must lie in [1, 10000]. -/
def validateSorting (q : SemanticQuery) : List String :=
  match q.sorting with
  | Option.none => []
  | some s =>
    (if s.order_by ≠ q.metric_request.primary_metric ∧
        s.order_by ∉ q.dimensionality.group_by then
      ["Cannot sort by '" ++ s.order_by ++ "' - not in SELECT clause"]
     else [])
    ++ (match s.limit with
      | some l => if l ≠ 0 ∧ (l < 1 ∨ l > 10000) then
          ["Limit must be between 1 and 10000"] else []
      | Option.none => [])

/-- `SemanticValidator.validate`: short-circuits only on an unknown primary
metric; otherwise the error lists of checks 2-8 in program order.  Check 4
(metric-dimension compatibility) can never add an error in the source:
`get_metric` returns a dict and `hasattr(dict, 'allowed_dimensions')` is
always `False`. -/
def validate (sl : SemanticLayer) (q : SemanticQuery) : List String :=
  match sl.getMetric q.metric_request.primary_metric with
  | Option.none => ["Unknown metric: " ++ q.metric_request.primary_metric]
  | some _metric =>
    let secondaryErrors := q.metric_request.secondary_metrics.filterMap (fun nm =>
      if (sl.getMetric nm).isNone then some ("Unknown secondary metric: " ++ nm)
      else Option.none)
    let dimensionErrors := q.dimensionality.group_by.filterMap (fun dim =>
      if (sl.getDimension dim).isNone ∧ ¬ (isValidDimensionAttribute dim = true) then
        some ("Unknown dimension: " ++ dim)
      else Option.none)
    let cardinalityErrors := if q.dimensionality.group_by.length > 4 then
      ["Too many dimensions (max 4 to prevent performance issues)"] else []
    let windowErrors := if q.time_context.window ∈ validWindows then []
      else ["Invalid time window: " ++ q.time_context.window ++ ". Valid: "
        ++ joinSep ", " validWindows]
    let filterErrors := q.filters.flatMap validateFilter
    secondaryErrors ++ dimensionErrors ++ cardinalityErrors ++ windowErrors
      ++ filterErrors ++ validateSorting q

/-! ## Query patterns (`query_patterns.py`)

Each pattern deep-copies the query and mutates the copy; that is a pure
record update here. -/

def timeDimensions : List String :=
  ["date", "week", "month", "month_name", "quarter", "year",
   "fiscal_week", "fiscal_month", "fiscal_quarter", "fiscal_year"]

/-- The grain → inserted-dimension dispatch of `TrendPattern.optimize`. -/
def grainTimeDimension (grain : String) : String :=
  if grain = "week" then "week"
  else if grain = "month" then "month_name"
  else if grain = "quarter" then "quarter"
  else if grain = "year" then "year"
  else "date"

/-- `TrendPattern.optimize`: insert a time dimension at position 0 when none
is present; when no sorting is set, default to ascending order on the first
time dimension found in the (possibly extended) group-by. -/
def TrendPattern.optimize (q : SemanticQuery) : SemanticQuery :=
  let group_by := q.dimensionality.group_by
  let has_time_dim := timeDimensions.any (fun dim => group_by.contains dim)
  let group_by' :=
    if has_time_dim then group_by
    else grainTimeDimension q.time_context.grain :: group_by
  let sorting' :=
    match q.sorting with
    | some s => some s
    | Option.none =>
      match group_by'.find? (fun dim => timeDimensions.contains dim) with
      | some time_dim => some { order_by := time_dim, direction := "ASC", limit := Option.none }
      | Option.none => Option.none
  { q with dimensionality := { q.dimensionality with group_by := group_by' },
           sorting := sorting' }

/-- `ComparisonPattern.optimize`: synthesize a default comparison from the
window substring when absent; force `metric_variant` from `absolute` to
`growth`. -/
def ComparisonPattern.optimize (q : SemanticQuery) : SemanticQuery :=
  let comparison' :=
    match q.comparison with
    | some c => some c
    | Option.none =>
      let w := strLower q.time_context.window
      let baseline :=
        if occursIn w "month" then "last_month"
        else if occursIn w "quarter" then "last_quarter"
        else if occursIn w "year" then "last_year"
        else "previous_period"
      some { type := "period", baseline := baseline, metric_variant := "growth" }
  let mv := q.metric_request.metric_variant
  let mv' := if mv = "absolute" then "growth" else mv
  { q with comparison := comparison',
           metric_request := { q.metric_request with metric_variant := mv' } }

/-- `RankingPattern.optimize`: default sorting `(primary_metric, DESC, 10)`
when absent; an absent or zero limit (`if not limit:`) becomes 10; a limit
above 100 is capped at 100. -/
def RankingPattern.optimize (q : SemanticQuery) : SemanticQuery :=
  match q.sorting with
  | Option.none =>
    { q with sorting := some { order_by := q.metric_request.primary_metric,
                               direction := "DESC", limit := some 10 } }
  | some s =>
    let limit' :=
      match s.limit with
      | Option.none => some (10 : Int)
      | some l => if l = 0 then some 10 else if l > 100 then some 100 else some l
    { q with sorting := some { s with limit := limit' } }

def defaultDiagnosticDimensions : List String :=
  ["brand_name", "state_name", "channel_name"]

/-- `DiagnosticPattern.optimize`: synthesize an enabled diagnostics block
with the default CPG dimensions when absent; otherwise force `enabled` and
fill an empty dimension list with the defaults. -/
def DiagnosticPattern.optimize (q : SemanticQuery) : SemanticQuery :=
  match q.diagnostics with
  | Option.none =>
    { q with diagnostics := some { enabled := true, diagnostic_type := "contribution",
                                   dimensions := defaultDiagnosticDimensions,
                                   threshold := 1/20 } }
  | some d =>
    let dims := if d.dimensions.isEmpty then defaultDiagnosticDimensions else d.dimensions
    { q with diagnostics := some { d with enabled := true, dimensions := dims } }

/-- `SnapshotPattern.optimize` is the identity. -/
def SnapshotPattern.optimize (q : SemanticQuery) : SemanticQuery := q

/-- `PatternRegistry.optimize_query`: the registry iterates
`[Trend, Comparison, Ranking, Diagnostic, Snapshot]` and each `matches` is an
intent-equality test, so exactly the pattern of the query's intent runs. -/
def PatternRegistry.optimizeQuery (q : SemanticQuery) : SemanticQuery :=
  match q.intent with
  | .trend => TrendPattern.optimize q
  | .comparison => ComparisonPattern.optimize q
  | .ranking => RankingPattern.optimize q
  | .diagnostic => DiagnosticPattern.optimize q
  | .snapshot => SnapshotPattern.optimize q

/-! ## Diagnostic orchestrator (`orchestrator.py`)

The injected executor is a function from SQL text to a result or an error
(a raised exception is the error case of `Except`).  Wall-clock execution
timing (`execution_time_ms`, `total_execution_time_ms`) is real time and is
not modelled; no claim concerns it. -/

/-- A result row (a Python dict, insertion-ordered). -/
abbrev Row := List (String × PyVal)

structure ExecResult where
  data : List Row := []
deriving DecidableEq, Repr

/-- The payload of `QueryOrchestrator._execute_single`'s result dict
(`query_type` is the constant `'single'`). -/
structure SingleResult where
  sql : String
  results : List Row
  row_count : Nat
  intent : IntentType
deriving DecidableEq, Repr

/-- `QueryOrchestrator._execute_single`: build the AST, render SQL, run the
executor; a `ValueError` from the builder or an executor exception
propagates. -/
def executeSingle (sl : SemanticLayer) (executor : String → Except String ExecResult)
    (q : SemanticQuery) : Except String SingleResult :=
  match buildQuery sl q with
  | .error e => .error e
  | .ok ast =>
    let sql := ast.toSql
    match executor sql with
    | .error e => .error e
    | .ok result => .ok { sql := sql, results := result.data,
                          row_count := result.data.length, intent := q.intent }

/-- `QueryOrchestrator._get_time_dimension`. -/
def getTimeDimension (q : SemanticQuery) : String :=
  match q.time_context.grain with
  | "day" => "date"
  | "week" => "week"
  | "month" => "month_name"
  | "quarter" => "quarter"
  | "year" => "year"
  | _ => "week"

/-- `QueryOrchestrator._get_diagnostic_dimensions`
(`if diagnostics and diagnostics.dimensions:`). -/
def getDiagnosticDimensions (q : SemanticQuery) : List String :=
  match q.diagnostics with
  | some d => if d.dimensions.isEmpty then defaultDiagnosticDimensions else d.dimensions
  | Option.none => defaultDiagnosticDimensions

/-- The named sub-query list assembled by `_execute_diagnostic`: the trend
confirmation, then one contribution ranking per diagnostic dimension. -/
def diagnosticSubQueries (q : SemanticQuery) : List (String × SemanticQuery) :=
  let td := getTimeDimension q
  let trend_query :=
    { q with intent := IntentType.trend,
             dimensionality := { q.dimensionality with group_by := [td] },
             sorting := some { order_by := td, direction := "ASC", limit := Option.none } }
  let contribs := (getDiagnosticDimensions q).map (fun dim =>
    ("contribution_" ++ dim,
     { q with intent := IntentType.ranking,
              dimensionality := { q.dimensionality with group_by := [dim] },
              sorting := some { order_by := q.metric_request.primary_metric,
                                direction := "DESC", limit := some 10 } }))
  ("trend_confirmation", trend_query) :: contribs

/-- The sequential execution loop of `_execute_diagnostic`: sub-queries run
in order and the first failure aborts the whole workflow. -/
def runSubQueries (sl : SemanticLayer) (executor : String → Except String ExecResult) :
    List (String × SemanticQuery) → Except String (List (String × SingleResult))
  | [] => .ok []
  | (name, sq) :: rest =>
    match executeSingle sl executor sq with
    | .error e => .error e
    | .ok r =>
      match runSubQueries sl executor rest with
      | .error e => .error e
      | .ok results => .ok ((name, r) :: results)

/-- Numeric reading of a result cell, Python `float(...)` over the values the
pipeline produces (aggregates are numeric; string parsing of numeric text is
not modelled — no claim depends on analysis arithmetic). -/
def pyNum : PyVal → ℚ
  | .i v => (v : ℚ)
  | .b true => 1
  | .b false => 0
  | .s _ => 0
  | .null => 0

/-- Python `dict.get(key, default)` on a row. -/
def rowGet (row : Row) (key : String) (dflt : PyVal) : PyVal :=
  match row.find? (fun kv => kv.1 == key) with
  | some kv => kv.2
  | Option.none => dflt

/-- Python `list.index(x)` (the element is present wherever this is used). -/
def indexOfQ (x : ℚ) : List ℚ → Nat
  | [] => 0
  | y :: rest => if y = x then 0 else indexOfQ x rest + 1

/-- `_analyze_trend`'s result dict.  The insufficient-data branch fills only
`direction`, `change_pct` and `data_points`; the remaining fields default.
(`round(change_pct, 2)` is kept unrounded.) -/
structure TrendAnalysis where
  direction : String
  change_pct : ℚ
  first_value : ℚ := 0
  last_value : ℚ := 0
  peak_value : ℚ := 0
  peak_period : Row := []
  trough_value : ℚ := 0
  trough_period : Row := []
  data_points : Nat
deriving DecidableEq, Repr

/-- `QueryOrchestrator._analyze_trend`. -/
def analyzeTrend (trend_data : List Row) (metric_name : String) : TrendAnalysis :=
  if trend_data.length < 2 then
    { direction := "insufficient_data", change_pct := 0, data_points := trend_data.length }
  else
    let first_value := pyNum (rowGet (trend_data.headD []) metric_name (PyVal.i 0))
    let last_value := pyNum (rowGet (trend_data.getLastD []) metric_name (PyVal.i 0))
    let change_pct := if first_value = 0 then 0
      else (last_value - first_value) / first_value * 100
    let direction :=
      if |change_pct| < 1 then "stable"
      else if change_pct > 0 then "increasing"
      else "decreasing"
    let values := trend_data.map (fun d => pyNum (rowGet d metric_name (PyVal.i 0)))
    let peak := values.foldl max (values.headD 0)
    let trough := values.foldl min (values.headD 0)
    { direction := direction, change_pct := change_pct,
      first_value := first_value, last_value := last_value,
      peak_value := peak, peak_period := trend_data.getD (indexOfQ peak values) [],
      trough_value := trough, trough_period := trend_data.getD (indexOfQ trough values) [],
      data_points := trend_data.length }

structure ContributionSummary where
  dimension : String
  top_contributor : Row
  total_contributors : Nat
  top_5 : List Row
deriving DecidableEq, Repr

/-- Python `str.replace` (all non-overlapping occurrences, left to right). -/
def pyReplaceList (pat repl : List Char) : List Char → List Char
  | [] => []
  | c :: rest =>
    if isPrefixList pat (c :: rest) && ! pat.isEmpty then
      repl ++ pyReplaceList pat repl (rest.drop (pat.length - 1))
    else c :: pyReplaceList pat repl rest
termination_by l => l.length
decreasing_by
  · simp only [List.length_cons, List.length_drop]
    omega
  · simp

def pyReplace (s pat repl : String) : String :=
  String.mk (pyReplaceList pat.data repl.data s.data)

/-- The contribution-extraction loop of `_analyze_diagnostic`: every
`contribution_{dim}` entry with a non-empty result list yields its top
contributor and top-5. -/
def analyzeContributions (results : List (String × SingleResult)) : List ContributionSummary :=
  results.filterMap (fun nv =>
    if strStartsWith nv.1 "contribution_" then
      let dim := pyReplace nv.1 "contribution_" ""
      match nv.2.results with
      | [] => Option.none
      | top :: _ => some { dimension := dim, top_contributor := top,
                           total_contributors := nv.2.results.length,
                           top_5 := nv.2.results.take 5 }
    else Option.none)

/-- Python `str(value)` / f-string rendering of a cell (the `:,.0f` and
`:.1f` float formats are approximated by the plain rational rendering). -/
def pyStr : PyVal → String
  | .s v => v
  | .i v => toString v
  | .b true => "True"
  | .b false => "False"
  | .null => "None"

def fmtQ (x : ℚ) : String := toString x

/-- `QueryOrchestrator._generate_insights`. -/
def generateInsights (trend : TrendAnalysis) (contribs : List ContributionSummary)
    (metric_name : String) : List String :=
  let trendInsight :=
    if trend.direction = "increasing" then
      "[+] " ++ metric_name ++ " increased by " ++ fmtQ |trend.change_pct| ++ "% over the period"
    else if trend.direction = "decreasing" then
      "[!] " ++ metric_name ++ " decreased by " ++ fmtQ |trend.change_pct| ++ "% over the period"
    else
      "[=] " ++ metric_name ++ " remained stable (change: " ++ fmtQ trend.change_pct ++ "%)"
  let contribInsights := (contribs.take 3).map (fun contrib =>
    let dim_value := pyStr (contrib.top_contributor.headD ("", PyVal.null)).2
    let metric_value := pyStr (rowGet contrib.top_contributor metric_name (PyVal.i 0))
    "[>] Top contributor in " ++ contrib.dimension ++ ": " ++ dim_value
      ++ " (value: " ++ metric_value ++ ")")
  trendInsight :: contribInsights

/-- `QueryOrchestrator._generate_recommendations`. -/
def generateRecommendations (trend : TrendAnalysis)
    (contribs : List ContributionSummary) : List String :=
  let change_pct := |trend.change_pct|
  let base :=
    if trend.direction = "decreasing" ∧ change_pct > 5 then
      ["[>] Immediate action recommended: Metric declining significantly",
       "[>] Investigate top contributing segments for root cause",
       "[>] Consider targeted interventions in high-impact areas"]
    else if trend.direction = "increasing" ∧ change_pct > 10 then
      ["[>] Positive trend: Consider scaling successful strategies",
       "[>] Analyze top performers to replicate success factors"]
    else
      ["[>] Monitor trend for significant changes"]
  match contribs with
  | [] => base
  | top :: _ => base ++ ["[>] Focus analysis on " ++ top.dimension ++ " - shows highest variation"]

structure Analysis where
  trend_analysis : TrendAnalysis
  contribution_analysis : List ContributionSummary
  insights : List String
  recommendations : List String
deriving DecidableEq, Repr

/-- `QueryOrchestrator._analyze_diagnostic`. -/
def analyzeDiagnostic (results : List (String × SingleResult)) (q : SemanticQuery) : Analysis :=
  let metric_name := q.metric_request.primary_metric
  let trend_data :=
    match results.find? (fun nv => nv.1 == "trend_confirmation") with
    | some nv => nv.2.results
    | Option.none => []
  let trend_analysis := analyzeTrend trend_data metric_name
  let contribution_analysis := analyzeContributions results
  { trend_analysis := trend_analysis,
    contribution_analysis := contribution_analysis,
    insights := generateInsights trend_analysis contribution_analysis metric_name,
    recommendations := generateRecommendations trend_analysis contribution_analysis }

/-- The payload of `_execute_diagnostic`'s result dict
(`query_type = 'diagnostic'`, `total_queries = len(queries)`). -/
structure DiagnosticResult where
  sub_queries : List (String × SingleResult)
  analysis : Analysis
  total_queries : Nat
deriving DecidableEq, Repr

/-- `QueryOrchestrator._execute_diagnostic`: assemble the 1+N sub-queries,
execute them all (any failure propagating), then synthesize the analysis. -/
def executeDiagnostic (sl : SemanticLayer) (executor : String → Except String ExecResult)
    (q : SemanticQuery) : Except String DiagnosticResult :=
  let queries := diagnosticSubQueries q
  match runSubQueries sl executor queries with
  | .error e => .error e
  | .ok results =>
    .ok { sub_queries := results, analysis := analyzeDiagnostic results q,
          total_queries := queries.length }

/-! ## General helper lemmas -/

lemma ne_of_head_char {s t : String} (h : s.data.head? ≠ t.data.head?) : s ≠ t :=
  fun e => h (by rw [e])

lemma head?_append_lit (s t : String) (c : Char) (h : s.data.head? = some c) :
    (s ++ t).data.head? = some c := by
  cases s with
  | mk l =>
    cases t with
    | mk m =>
      cases l with
      | nil => simp at h
      | cons a r => exact h

/-- Quote doubling: escaping exactly doubles the count of single quotes. -/
lemma escapeQuotesAux_count (l : List Char) :
    (escapeQuotesAux l).count squote = 2 * l.count squote := by
  induction l with
  | nil => simp [escapeQuotesAux]
  | cons c rest ih =>
    by_cases h : c = squote
    · subst h
      simp [escapeQuotesAux, List.count_cons, ih]
      omega
    · simp [escapeQuotesAux, h, List.count_cons, ih]

/-! ## C1: rendering of IN filters through Literal escaping -/

/-- The concrete filter of spec scenario 5. -/
def filterScenario5 : Filter :=
  { dimension := "state_name", operator := "IN",
    values := [PyVal.s "Tamil Nadu", PyVal.s "O'Brien County"] }

/-- C1 (amended): a user filter with operator `IN` whose dimension resolves
compiles to the resolved column, `IN`, and a parenthesized list in which each
value appears only through `Literal.to_sql`; string values render
single-quoted with every embedded quote doubled (the quote count exactly
doubles); the scenario-5 filter renders as
`g.state_name IN ('Tamil Nadu', 'O''Brien County')` — the resolved column
carries the geography alias `g.`. -/
theorem C1_in_filter_escaped_rendering (f : Filter) (col : String)
    (hop : f.operator = "IN")
    (hres : resolveDimensionAttribute f.dimension = some col) :
    buildFilterCondition f =
      .ok (some (SqlExpr.bin (SqlExpr.col col Option.none Option.none) "IN"
        (SqlExpr.litList f.values)))
    ∧ (SqlExpr.bin (SqlExpr.col col Option.none Option.none) "IN"
        (SqlExpr.litList f.values)).toSql
      = col ++ " " ++ "IN" ++ " " ++ ("(" ++ joinSep ", " (f.values.map Literal.toSql) ++ ")")
    ∧ (∀ s : String, Literal.toSql (PyVal.s s) = "'" ++ escapeQuotes s ++ "'")
    ∧ (∀ s : String,
        (Literal.toSql (PyVal.s s)).data.count squote = 2 * s.data.count squote + 2)
    ∧ (buildFilterCondition filterScenario5).map (fun o => o.map SqlExpr.toSql)
      = .ok (some "g.state_name IN ('Tamil Nadu', 'O''Brien County')") := by
  refine ⟨?_, rfl, fun s => rfl, ?_, rfl⟩
  · simp [buildFilterCondition, hres, hop]
  · intro s
    show (("'" ++ escapeQuotes s ++ "'").data.count squote) = _
    rw [String.data_append, String.data_append]
    rw [List.count_append, List.count_append]
    show (1 + ((escapeQuotesAux s.data).count squote + 1)) = _
    rw [escapeQuotesAux_count]
    ring

/-- C1 counterexample: the scenario-5 filter does *not* render as
`state_name IN ('Tamil Nadu', 'O''Brien County')` (the claim's concrete
string); it renders with the resolved, alias-qualified column
`g.state_name`. -/
theorem C1_counterexample :
    (buildFilterCondition filterScenario5).map (fun o => o.map SqlExpr.toSql)
      = .ok (some "g.state_name IN ('Tamil Nadu', 'O''Brien County')")
    ∧ ("g.state_name IN ('Tamil Nadu', 'O''Brien County')" : String)
      ≠ "state_name IN ('Tamil Nadu', 'O''Brien County')" :=
  ⟨rfl, by decide⟩

/-- C1 witness: the theorem applied to the scenario-5 filter. -/
theorem C1_witness :
    filterScenario5.operator = "IN"
    ∧ resolveDimensionAttribute filterScenario5.dimension = some "g.state_name"
    ∧ (buildFilterCondition filterScenario5).map (fun o => o.map SqlExpr.toSql)
      = .ok (some "g.state_name IN ('Tamil Nadu', 'O''Brien County')") :=
  ⟨rfl, rfl, (C1_in_filter_escaped_rendering filterScenario5 "g.state_name" rfl rfl).2.2.2.2⟩

/-! ## C10: non-`=`/non-`IN` operators use only `values[0]` -/

/-- C10: for any operator other than `=` and `IN` (including the
validator-accepted `NOT IN` and `BETWEEN`), the compiled condition is a
single binary comparison against the first value only — no parenthesized
list; concretely a two-valued `NOT IN` filter renders as
`g.state_name NOT IN 'Tamil Nadu'`. -/
theorem C10_other_operators_take_first_value (f : Filter) (col : String)
    (v : PyVal) (rest : List PyVal)
    (hres : resolveDimensionAttribute f.dimension = some col)
    (hop1 : f.operator ≠ "IN") (hop2 : f.operator ≠ "=")
    (hvals : f.values = v :: rest) :
    buildFilterCondition f =
      .ok (some (SqlExpr.bin (SqlExpr.col col Option.none Option.none) f.operator
        (SqlExpr.lit v)))
    ∧ (SqlExpr.bin (SqlExpr.col col Option.none Option.none) f.operator
        (SqlExpr.lit v)).toSql
      = col ++ " " ++ f.operator ++ " " ++ Literal.toSql v
    ∧ "NOT IN" ∈ validOperators
    ∧ "BETWEEN" ∈ validOperators
    ∧ (buildFilterCondition
        { dimension := "state_name", operator := "NOT IN",
          values := [PyVal.s "Tamil Nadu", PyVal.s "Kerala"] }).map
        (fun o => o.map SqlExpr.toSql)
      = .ok (some "g.state_name NOT IN 'Tamil Nadu'") := by
  refine ⟨?_, rfl, by decide, by decide, rfl⟩
  simp [buildFilterCondition, hres, hop1, hop2, hvals]

/-- C10 witness: the theorem applied to a two-valued `NOT IN` filter. -/
theorem C10_witness :
    resolveDimensionAttribute "state_name" = some "g.state_name"
    ∧ (buildFilterCondition
        { dimension := "state_name", operator := "NOT IN",
          values := [PyVal.s "Tamil Nadu", PyVal.s "Kerala"] }).map
        (fun o => o.map SqlExpr.toSql)
      = .ok (some "g.state_name NOT IN 'Tamil Nadu'") :=
  ⟨rfl,
    (C10_other_operators_take_first_value
      { dimension := "state_name", operator := "NOT IN",
        values := [PyVal.s "Tamil Nadu", PyVal.s "Kerala"] }
      "g.state_name" (PyVal.s "Tamil Nadu") [PyVal.s "Kerala"]
      rfl (by decide) (by decide) rfl).2.2.2.2⟩

/-! ## C4: join construction and the `season` / `pack_size` gap -/

/-- A minimal concrete catalog: one metric, no catalog dimensions (all
dimension names resolve through the validator's flat attribute table). -/
def slSales : SemanticLayer :=
  { getMetric := fun n =>
      if n = "sales" then
        some { name := "sales", sql := "SUM(net_value)", table := "fact_sales" }
      else Option.none,
    getDimension := fun _ => Option.none }

def metricSales : Metric :=
  { name := "sales", sql := "SUM(net_value)", table := "fact_sales" }

/-- A validator-accepted query grouping by `season`. -/
def qSeason : SemanticQuery :=
  { intent := IntentType.snapshot,
    metric_request := { primary_metric := "sales" },
    dimensionality := { group_by := ["season"] },
    time_context := { window := "mtd" },
    original_question := "sales by season" }

/-- C4 evaluated at the failing input: `season` is accepted by the validator
and resolves to the alias-qualified column `d.season`, so the compiled SELECT
and GROUP BY reference alias `d` — yet `_build_joins`' table map has no entry
for `season`, so no `LEFT JOIN dim_date d` is emitted and the rendered SQL
references an undefined alias. -/
theorem C4_season_missing_join :
    validate slSales qSeason = []
    ∧ isValidDimensionAttribute "season" = true
    ∧ resolveDimensionAttribute "season" = some "d.season"
    ∧ dimensionTable "season" = Option.none
    ∧ buildJoins qSeason = []
    ∧ (buildQuery slSales qSeason).map Query.toSql
      = .ok ("SELECT d.season AS season, SUM(net_value) AS sales\n"
          ++ "FROM fact_sales f\nGROUP BY d.season") :=
  ⟨by decide, rfl, rfl, rfl, rfl, rfl⟩

/-! ## C6: ranking limit bounds after pattern optimization -/

/-- C6 (amended): for a ranking query, a missing sorting defaults to
`(primary_metric, DESC, 10)`, a missing (or zero, Python-falsy) limit
defaults to 10, and a limit above 100 is clamped to 100; whenever the given
limit is not negative, the optimized limit satisfies `1 ≤ limit ≤ 100`.
(A negative limit passes through unchanged — the claim's bound fails there,
see the counterexample.) -/
theorem C6_ranking_limit_bounds (q : SemanticQuery)
    (hintent : q.intent = IntentType.ranking)
    (hnonneg : ∀ s l, q.sorting = some s → s.limit = some l → 0 ≤ l) :
    (q.sorting = Option.none →
      (PatternRegistry.optimizeQuery q).sorting
        = some { order_by := q.metric_request.primary_metric,
                 direction := "DESC", limit := some 10 })
    ∧ (∀ s, q.sorting = some s → s.limit = Option.none →
        (PatternRegistry.optimizeQuery q).sorting = some { s with limit := some 10 })
    ∧ (∀ s l, q.sorting = some s → s.limit = some l → l > 100 →
        (PatternRegistry.optimizeQuery q).sorting = some { s with limit := some 100 })
    ∧ (∃ s l, (PatternRegistry.optimizeQuery q).sorting = some s ∧ s.limit = some l
        ∧ 1 ≤ l ∧ l ≤ 100) := by
  have hopt : PatternRegistry.optimizeQuery q = RankingPattern.optimize q := by
    unfold PatternRegistry.optimizeQuery
    rw [hintent]
  refine ⟨?_, ?_, ?_, ?_⟩
  · intro hs
    rw [hopt]
    unfold RankingPattern.optimize
    rw [hs]
  · intro s hs hl
    rw [hopt]
    unfold RankingPattern.optimize
    rw [hs]
    simp [hl]
  · intro s l hs hl hgt
    rw [hopt]
    unfold RankingPattern.optimize
    rw [hs]
    have h0 : ¬ l = 0 := by omega
    simp [hl, h0, hgt]
  · rw [hopt]
    unfold RankingPattern.optimize
    cases hs : q.sorting with
    | none =>
      exact ⟨_, 10, rfl, rfl, by norm_num, by norm_num⟩
    | some s =>
      cases hl : s.limit with
      | none =>
        refine ⟨_, 10, rfl, ?_, by norm_num, by norm_num⟩
        simp [hl]
      | some l =>
        have hle : 0 ≤ l := hnonneg s l hs hl
        by_cases h0 : l = 0
        · refine ⟨_, 10, rfl, ?_, by norm_num, by norm_num⟩
          simp [hl, h0]
        · by_cases h100 : l > 100
          · refine ⟨_, 100, rfl, ?_, by norm_num, by norm_num⟩
            simp [hl, h0, h100]
          · refine ⟨_, l, rfl, ?_, by omega, by omega⟩
            simp [hl, h0, h100]

/-- A ranking query carrying a negative limit. -/
def qRankNeg : SemanticQuery :=
  { intent := IntentType.ranking,
    metric_request := { primary_metric := "sales" },
    sorting := some { order_by := "sales", direction := "DESC", limit := some (-1) },
    original_question := "top sellers" }

/-- C6 counterexample: a ranking query with limit `-1` keeps limit `-1`
after pattern optimization (`if not limit:` is false and `-1 > 100` is
false), violating `1 ≤ limit ≤ 100`. -/
theorem C6_counterexample :
    (PatternRegistry.optimizeQuery qRankNeg).sorting
      = some { order_by := "sales", direction := "DESC", limit := some (-1) }
    ∧ ¬ (1 ≤ (-1 : Int) ∧ (-1 : Int) ≤ 100) :=
  ⟨rfl, by decide⟩

/-- A ranking query with no sorting at all. -/
def qRankBare : SemanticQuery :=
  { intent := IntentType.ranking,
    metric_request := { primary_metric := "sales" },
    original_question := "top sellers" }

/-- C6 witness: the theorem applied to a sorting-less ranking query. -/
theorem C6_witness :
    qRankBare.intent = IntentType.ranking
    ∧ (∃ s l, (PatternRegistry.optimizeQuery qRankBare).sorting = some s
        ∧ s.limit = some l ∧ 1 ≤ l ∧ l ≤ 100) :=
  ⟨rfl,
    (C6_ranking_limit_bounds qRankBare rfl
      (fun _ _ hs _ => Option.noConfusion hs)).2.2.2⟩

/-! ## C2: unresolvable filter dimensions are silently dropped -/

lemma buildFilterCondition_unresolved {f : Filter}
    (h : resolveDimensionAttribute f.dimension = Option.none) :
    buildFilterCondition f = .ok Option.none := by
  simp [buildFilterCondition, h]

/-- The one-step unfolding of `buildUserConds` on a cons cell. -/
lemma buildUserConds_cons (g : Filter) (rest : List Filter) :
    buildUserConds (g :: rest)
      = match buildFilterCondition g with
        | .error e => .error e
        | .ok c =>
          match buildUserConds rest with
          | .error e => .error e
          | .ok others =>
            match c with
            | some cond => .ok (cond :: others)
            | Option.none => .ok others := rfl

lemma buildUserConds_skip (pre post : List Filter) (f : Filter)
    (h : resolveDimensionAttribute f.dimension = Option.none) :
    buildUserConds (pre ++ f :: post) = buildUserConds (pre ++ post) := by
  induction pre with
  | nil =>
    show buildUserConds (f :: post) = buildUserConds post
    rw [buildUserConds_cons, buildFilterCondition_unresolved h]
    cases buildUserConds post <;> rfl
  | cons g rest ih =>
    show buildUserConds (g :: (rest ++ f :: post)) = buildUserConds (g :: (rest ++ post))
    rw [buildUserConds_cons, buildUserConds_cons, ih]

/-- C2: a filter whose dimension does not resolve in the builder's
dimension-attribute mapping produces no condition and no error, and the
whole compiled query is identical to the query compiled without that
filter, wherever it sits in the filter list. -/
theorem C2_unresolvable_filter_dropped (sl : SemanticLayer) (q : SemanticQuery)
    (pre post : List Filter) (f : Filter)
    (h : resolveDimensionAttribute f.dimension = Option.none) :
    buildFilterCondition f = .ok Option.none
    ∧ buildQuery sl { q with filters := pre ++ f :: post }
      = buildQuery sl { q with filters := pre ++ post } := by
  refine ⟨buildFilterCondition_unresolved h, ?_⟩
  have hwhere : ∀ metric : Metric,
      buildWhere { q with filters := pre ++ f :: post } metric
        = buildWhere { q with filters := pre ++ post } metric := by
    intro metric
    unfold buildWhere
    dsimp only
    rw [buildUserConds_skip pre post f h]
  unfold buildQuery
  dsimp only
  cases sl.getMetric q.metric_request.primary_metric with
  | none => rfl
  | some metric =>
    dsimp only
    rw [hwhere metric]
    cases buildWhere { q with filters := pre ++ post } metric with
    | error e => rfl
    | ok w => rfl

/-- A query with a single RLS-style filter on a dimension unknown to the
compiler's attribute mapping. -/
def qTenantFiltered : SemanticQuery :=
  { intent := IntentType.snapshot,
    metric_request := { primary_metric := "sales" },
    dimensionality := { group_by := ["brand_name"] },
    time_context := { window := "mtd" },
    filters := [{ dimension := "tenant_id", operator := "=", values := [PyVal.i 7] }],
    original_question := "sales" }

/-- C2 witness: a `tenant_id = 7` filter (as row-level security would inject)
is dropped without error and the compiled SQL equals the unfiltered query's. -/
theorem C2_witness :
    resolveDimensionAttribute "tenant_id" = Option.none
    ∧ buildFilterCondition
        { dimension := "tenant_id", operator := "=", values := [PyVal.i 7] }
      = .ok Option.none
    ∧ buildQuery slSales qTenantFiltered
      = buildQuery slSales { qTenantFiltered with filters := [] } :=
  ⟨rfl,
    (C2_unresolvable_filter_dropped slSales qTenantFiltered [] []
      { dimension := "tenant_id", operator := "=", values := [PyVal.i 7] } rfl).1,
    (C2_unresolvable_filter_dropped slSales qTenantFiltered [] []
      { dimension := "tenant_id", operator := "=", values := [PyVal.i 7] } rfl).2⟩

/-! ## C3: composition of the compiled WHERE clause -/

lemma buildUserConds_mem {fs : List Filter} {conds : List SqlExpr}
    (h : buildUserConds fs = .ok conds) :
    ∀ c ∈ conds, ∃ f ∈ fs, buildFilterCondition f = .ok (some c) := by
  induction fs generalizing conds with
  | nil =>
    unfold buildUserConds at h
    cases h
    simp
  | cons f rest ih =>
    unfold buildUserConds at h
    cases hf : buildFilterCondition f with
    | error e => rw [hf] at h; cases h
    | ok copt =>
      rw [hf] at h
      cases hr : buildUserConds rest with
      | error e => rw [hr] at h; cases h
      | ok others =>
        rw [hr] at h
        cases copt with
        | none =>
          cases h
          intro c hc
          obtain ⟨g, hg, hgc⟩ := ih hr c hc
          exact ⟨g, List.mem_cons_of_mem _ hg, hgc⟩
        | some cond =>
          cases h
          intro c hc
          rcases List.mem_cons.mp hc with rfl | hc'
          · exact ⟨f, List.mem_cons_self .., hf⟩
          · obtain ⟨g, hg, hgc⟩ := ih hr c hc'
            exact ⟨g, List.mem_cons_of_mem _ hg, hgc⟩

lemma buildUserConds_complete {fs : List Filter} {conds : List SqlExpr}
    (h : buildUserConds fs = .ok conds) :
    ∀ f ∈ fs, ∀ c, buildFilterCondition f = .ok (some c) → c ∈ conds := by
  induction fs generalizing conds with
  | nil => simp
  | cons g rest ih =>
    rw [buildUserConds_cons] at h
    intro f hf c hc
    rcases List.mem_cons.mp hf with heq | hf'
    · subst heq
      rw [hc] at h
      cases hr : buildUserConds rest with
      | error e => rw [hr] at h; cases h
      | ok others =>
        rw [hr] at h
        cases h
        exact List.mem_cons_self _ _
    · cases hg : buildFilterCondition g with
      | error e => rw [hg] at h; cases h
      | ok copt =>
        rw [hg] at h
        cases hr : buildUserConds rest with
        | error e => rw [hr] at h; cases h
        | ok others =>
          rw [hr] at h
          have hmem := ih hr f hf' c hc
          cases copt with
          | none => cases h; exact hmem
          | some cond => cases h; exact List.mem_cons_of_mem _ hmem

/-- Inversion of `buildWhere` on a successful, non-empty result. -/
lemma buildWhere_ok_some {q : SemanticQuery} {metric : Metric} {w : WhereClause}
    (h : buildWhere q metric = .ok (some w)) :
    ∃ userConds, buildUserConds q.filters = .ok userConds
      ∧ w.condition = metric.filters.filterMap parseMetricFilter ++ userConds := by
  unfold buildWhere at h
  cases hu : buildUserConds q.filters with
  | error e => rw [hu] at h; cases h
  | ok userConds =>
    rw [hu] at h
    refine ⟨userConds, rfl, ?_⟩
    rw [buildTimeFilter] at h
    simp only [Option.toList_none, List.append_nil] at h
    split at h
    · cases h
    · cases h
      rfl

/-- C3 (amended): a successfully compiled WHERE clause is the conjunction of
exactly (a) the metric's baked-in configuration filters and (b) the user
filters' conditions — every conjunct comes from one of those two sources,
every parseable metric filter and every compiled user filter appears, and no
time-window predicate is ever contributed (`_build_time_filter` returns
`None` for every time context). -/
theorem C3_where_is_metric_and_user_filters (q : SemanticQuery) (metric : Metric)
    (w : WhereClause) (h : buildWhere q metric = .ok (some w)) :
    buildTimeFilter q.time_context = Option.none
    ∧ (∀ c ∈ w.condition,
        (∃ fs ∈ metric.filters, parseMetricFilter fs = some c)
        ∨ (∃ f ∈ q.filters, buildFilterCondition f = .ok (some c)))
    ∧ (∀ fs ∈ metric.filters, ∀ c, parseMetricFilter fs = some c → c ∈ w.condition)
    ∧ (∀ f ∈ q.filters, ∀ c, buildFilterCondition f = .ok (some c) → c ∈ w.condition) := by
  obtain ⟨userConds, hu, hw⟩ := buildWhere_ok_some h
  refine ⟨rfl, ?_, ?_, ?_⟩
  · intro c hc
    rw [hw] at hc
    rcases List.mem_append.mp hc with hm | hus
    · exact Or.inl (List.mem_filterMap.mp hm)
    · exact Or.inr (buildUserConds_mem hu c hus)
  · intro fs hfs c hc
    rw [hw]
    exact List.mem_append.mpr (Or.inl (List.mem_filterMap.mpr ⟨fs, hfs, hc⟩))
  · intro f hf c hc
    rw [hw]
    exact List.mem_append.mpr (Or.inr (buildUserConds_complete hu f hf c hc))

/-- A metric with one baked-in configuration filter. -/
def metricNoReturns : Metric :=
  { name := "sales", sql := "SUM(net_value)", table := "fact_sales",
    filters := ["return_flag = false"] }

def qStateFiltered : SemanticQuery :=
  { intent := IntentType.snapshot,
    metric_request := { primary_metric := "sales" },
    dimensionality := { group_by := ["brand_name"] },
    time_context := { window := "mtd" },
    filters := [{ dimension := "state_name", operator := "=", values := [PyVal.s "Kerala"] }],
    original_question := "sales in Kerala" }

/-- C3 witness: the theorem applied to a concrete metric filter plus user
filter, whose compiled WHERE clause is exactly those two conjuncts. -/
theorem C3_witness :
    buildWhere qStateFiltered metricNoReturns
      = .ok (some { condition :=
          [SqlExpr.bin (SqlExpr.col "return_flag" (some "f") Option.none) "="
            (SqlExpr.lit (PyVal.b false)),
           SqlExpr.bin (SqlExpr.col "g.state_name" Option.none Option.none) "="
            (SqlExpr.lit (PyVal.s "Kerala"))] })
    ∧ buildTimeFilter qStateFiltered.time_context = Option.none
    ∧ (∀ c ∈ ({ condition :=
          [SqlExpr.bin (SqlExpr.col "return_flag" (some "f") Option.none) "="
            (SqlExpr.lit (PyVal.b false)),
           SqlExpr.bin (SqlExpr.col "g.state_name" Option.none Option.none) "="
            (SqlExpr.lit (PyVal.s "Kerala"))] } : WhereClause).condition,
        (∃ fs ∈ metricNoReturns.filters, parseMetricFilter fs = some c)
        ∨ (∃ f ∈ qStateFiltered.filters, buildFilterCondition f = .ok (some c))) :=
  ⟨rfl, rfl,
    (C3_where_is_metric_and_user_filters qStateFiltered metricNoReturns _ rfl).2.1⟩

/-- A validator-accepted query with no filters at all. -/
def qBareSnapshot : SemanticQuery :=
  { intent := IntentType.snapshot,
    metric_request := { primary_metric := "sales" },
    dimensionality := { group_by := ["brand_name"] },
    time_context := { window := "mtd" },
    original_question := "sales this month" }

/-- C3 counterexample: a validator-accepted query whose compiled form has no
WHERE clause at all — in particular no time-window predicate for its symbolic
window `mtd` — refuting the claim that every compiled query carries one. -/
theorem C3_counterexample :
    validate slSales qBareSnapshot = []
    ∧ (buildQuery slSales qBareSnapshot).map (fun cq => cq.where_clause)
      = .ok Option.none :=
  ⟨by decide, rfl⟩

/-! ## C5: the dimension-count cap -/

/-- No error string built from another check can equal the cardinality error:
every other family starts with a different first character. -/
lemma ne_tooMany {s : String} (h : s.data.head? ≠ some 'T') :
    s ≠ "Too many dimensions (max 4 to prevent performance issues)" :=
  fun e => h (by subst e; rfl)

lemma secondary_ne_tooMany (nm : String) :
    "Unknown secondary metric: " ++ nm
      ≠ "Too many dimensions (max 4 to prevent performance issues)" :=
  ne_tooMany (by
    rw [head?_append_lit "Unknown secondary metric: " nm 'U' rfl]
    decide)

lemma dimension_ne_tooMany (dim : String) :
    "Unknown dimension: " ++ dim
      ≠ "Too many dimensions (max 4 to prevent performance issues)" :=
  ne_tooMany (by
    rw [head?_append_lit "Unknown dimension: " dim 'U' rfl]
    decide)

lemma window_ne_tooMany (w j : String) :
    "Invalid time window: " ++ w ++ ". Valid: " ++ j
      ≠ "Too many dimensions (max 4 to prevent performance issues)" :=
  ne_tooMany (by
    rw [head?_append_lit ("Invalid time window: " ++ w ++ ". Valid: ") j 'I'
      (head?_append_lit ("Invalid time window: " ++ w) ". Valid: " 'I'
        (head?_append_lit "Invalid time window: " w 'I' rfl))]
    decide)

lemma filterDim_ne_tooMany (d : String) :
    "Invalid filter dimension: " ++ d
      ≠ "Too many dimensions (max 4 to prevent performance issues)" :=
  ne_tooMany (by
    rw [head?_append_lit "Invalid filter dimension: " d 'I' rfl]
    decide)

lemma filterVals_ne_tooMany (d : String) :
    "Filter on " ++ d ++ " has no values"
      ≠ "Too many dimensions (max 4 to prevent performance issues)" :=
  ne_tooMany (by
    rw [head?_append_lit ("Filter on " ++ d) " has no values" 'F'
      (head?_append_lit "Filter on " d 'F' rfl)]
    decide)

lemma filterOp_ne_tooMany (op : String) :
    "Invalid filter operator: " ++ op
      ≠ "Too many dimensions (max 4 to prevent performance issues)" :=
  ne_tooMany (by
    rw [head?_append_lit "Invalid filter operator: " op 'I' rfl]
    decide)

lemma sortBy_ne_tooMany (ob : String) :
    "Cannot sort by '" ++ ob ++ "' - not in SELECT clause"
      ≠ "Too many dimensions (max 4 to prevent performance issues)" :=
  ne_tooMany (by
    rw [head?_append_lit ("Cannot sort by '" ++ ob) "' - not in SELECT clause" 'C'
      (head?_append_lit "Cannot sort by '" ob 'C' rfl)]
    decide)

lemma tooMany_not_in_filterErrors (f : Filter) :
    "Too many dimensions (max 4 to prevent performance issues)" ∉ validateFilter f := by
  intro hmem
  unfold validateFilter at hmem
  rcases List.mem_append.mp hmem with hmem' | hop
  · rcases List.mem_append.mp hmem' with hdim | hvals
    · split at hdim
      · cases hdim
      · rw [List.mem_singleton] at hdim
        exact filterDim_ne_tooMany f.dimension hdim.symm
    · split at hvals
      · rw [List.mem_singleton] at hvals
        exact filterVals_ne_tooMany f.dimension hvals.symm
      · cases hvals
  · split at hop
    · cases hop
    · rw [List.mem_singleton] at hop
      exact filterOp_ne_tooMany f.operator hop.symm

lemma tooMany_not_in_sortingErrors (q : SemanticQuery) :
    "Too many dimensions (max 4 to prevent performance issues)" ∉ validateSorting q := by
  intro hmem
  unfold validateSorting at hmem
  split at hmem
  · cases hmem
  · rcases List.mem_append.mp hmem with hsort | hlimit
    · split at hsort
      · rw [List.mem_singleton] at hsort
        exact sortBy_ne_tooMany _ hsort.symm
      · cases hsort
    · split at hlimit
      · split at hlimit
        · rw [List.mem_singleton] at hlimit
          exact absurd hlimit (by decide)
        · cases hlimit
      · cases hlimit

/-- C5 (amended): whenever the primary metric resolves in the catalog, a
query with five or more group-by dimensions always gets the "too many
dimensions" error and a query with at most four never does.  (When the
primary metric is unknown, validation short-circuits and reports only the
unknown metric — see the counterexample.) -/
theorem C5_dimension_cap (sl : SemanticLayer) (q : SemanticQuery) (m : Metric)
    (hm : sl.getMetric q.metric_request.primary_metric = some m) :
    (5 ≤ q.dimensionality.group_by.length →
      "Too many dimensions (max 4 to prevent performance issues)" ∈ validate sl q)
    ∧ (q.dimensionality.group_by.length ≤ 4 →
      "Too many dimensions (max 4 to prevent performance issues)" ∉ validate sl q) := by
  unfold validate
  rw [hm]
  dsimp only
  constructor
  · intro hlen
    have h5 : q.dimensionality.group_by.length > 4 := by omega
    simp only [if_pos h5]
    refine List.mem_append.mpr (Or.inl ?_)
    refine List.mem_append.mpr (Or.inl ?_)
    refine List.mem_append.mpr (Or.inl ?_)
    refine List.mem_append.mpr (Or.inr ?_)
    exact List.mem_singleton.mpr rfl
  · intro hlen hmem
    have h5 : ¬ q.dimensionality.group_by.length > 4 := by omega
    rw [if_neg h5] at hmem
    rcases List.mem_append.mp hmem with h1 | hsort
    · rcases List.mem_append.mp h1 with h2 | hfil
      · rcases List.mem_append.mp h2 with h3 | hwin
        · rcases List.mem_append.mp h3 with h4 | hnil
          · rcases List.mem_append.mp h4 with hsec | hdim
            · obtain ⟨nm, _, heq⟩ := List.mem_filterMap.mp hsec
              split at heq
              · exact secondary_ne_tooMany nm (Option.some.inj heq)
              · cases heq
            · obtain ⟨dim, _, heq⟩ := List.mem_filterMap.mp hdim
              split at heq
              · exact dimension_ne_tooMany dim (Option.some.inj heq)
              · cases heq
          · cases hnil
        · split at hwin
          · cases hwin
          · rw [List.mem_singleton] at hwin
            exact window_ne_tooMany _ _ hwin.symm
      · obtain ⟨f, _, hmemf⟩ := List.mem_flatMap.mp hfil
        exact tooMany_not_in_filterErrors f hmemf
    · exact tooMany_not_in_sortingErrors q hsort

/-- An empty catalog. -/
def slEmpty : SemanticLayer :=
  { getMetric := fun _ => Option.none, getDimension := fun _ => Option.none }

/-- Five group-by dimensions with an unknown primary metric. -/
def qFiveDims : SemanticQuery :=
  { intent := IntentType.snapshot,
    metric_request := { primary_metric := "sales" },
    dimensionality := { group_by :=
      ["brand_name", "state_name", "channel_name", "sku_name", "week"] },
    time_context := { window := "mtd" },
    original_question := "sales split five ways" }

/-- C5 counterexample: with an unknown primary metric, validation
short-circuits, so a query with five group-by dimensions is rejected
*without* any "too many dimensions" error — refuting the claim's
unconditional "always". -/
theorem C5_counterexample :
    qFiveDims.dimensionality.group_by.length = 5
    ∧ validate slEmpty qFiveDims = ["Unknown metric: sales"]
    ∧ "Too many dimensions (max 4 to prevent performance issues)"
        ∉ validate slEmpty qFiveDims := by
  refine ⟨rfl, rfl, ?_⟩
  intro hmem
  rw [show validate slEmpty qFiveDims = ["Unknown metric: sales"] from rfl,
    List.mem_singleton] at hmem
  exact absurd hmem (by decide)

/-- C5 witness: the amended theorem applied to a known metric, once with five
dimensions (error present) and once with one dimension (error absent). -/
theorem C5_witness :
    slSales.getMetric "sales" = some metricSales
    ∧ "Too many dimensions (max 4 to prevent performance issues)"
        ∈ validate slSales { qFiveDims with metric_request := { primary_metric := "sales" } }
    ∧ "Too many dimensions (max 4 to prevent performance issues)"
        ∉ validate slSales qSeason :=
  ⟨rfl,
    (C5_dimension_cap slSales
      { qFiveDims with metric_request := { primary_metric := "sales" } }
      metricSales rfl).1 (by decide),
    (C5_dimension_cap slSales qSeason metricSales rfl).2 (by decide)⟩

/-! ## C7: pattern optimization is idempotent -/

lemma semanticQuery_eq_of_fields {a b : SemanticQuery}
    (h1 : a.schema_version = b.schema_version) (h2 : a.intent = b.intent)
    (h3 : a.metric_request = b.metric_request) (h4 : a.dimensionality = b.dimensionality)
    (h5 : a.time_context = b.time_context) (h6 : a.filters = b.filters)
    (h7 : a.comparison = b.comparison) (h8 : a.diagnostics = b.diagnostics)
    (h9 : a.sorting = b.sorting) (h10 : a.result_shape = b.result_shape)
    (h11 : a.confidence = b.confidence) (h12 : a.original_question = b.original_question) :
    a = b := by
  cases a
  cases b
  simp_all

lemma dimensionality_eq_of_fields {a b : Dimensionality}
    (h1 : a.group_by = b.group_by) (h2 : a.hierarchy_level = b.hierarchy_level) :
    a = b := by
  cases a
  cases b
  simp_all

lemma grainTimeDimension_mem (g : String) : grainTimeDimension g ∈ timeDimensions := by
  unfold grainTimeDimension
  split_ifs <;> decide

/-- Projection of the optimized group-by list. -/
lemma trend_group_by (q : SemanticQuery) :
    (TrendPattern.optimize q).dimensionality.group_by
      = if timeDimensions.any (fun dim => q.dimensionality.group_by.contains dim)
        then q.dimensionality.group_by
        else grainTimeDimension q.time_context.grain :: q.dimensionality.group_by := rfl

/-- Projection of the optimized sorting. -/
lemma trend_sorting (q : SemanticQuery) :
    (TrendPattern.optimize q).sorting
      = match q.sorting with
        | some s => some s
        | Option.none =>
          match (TrendPattern.optimize q).dimensionality.group_by.find?
              (fun dim => timeDimensions.contains dim) with
          | some time_dim =>
            some { order_by := time_dim, direction := "ASC", limit := Option.none }
          | Option.none => Option.none := rfl

/-- After one trend optimization a time dimension is always present. -/
lemma trend_group_by_has_time (q : SemanticQuery) :
    timeDimensions.any (fun dim =>
      (TrendPattern.optimize q).dimensionality.group_by.contains dim) = true := by
  rw [trend_group_by]
  by_cases h : timeDimensions.any (fun dim => q.dimensionality.group_by.contains dim) = true
  · rw [if_pos h]
    exact h
  · rw [if_neg h, List.any_eq_true]
    refine ⟨grainTimeDimension q.time_context.grain,
      grainTimeDimension_mem q.time_context.grain, ?_⟩
    simp [List.contains, List.elem_iff]

lemma trend_optimize_idem (q : SemanticQuery) :
    TrendPattern.optimize (TrendPattern.optimize q) = TrendPattern.optimize q := by
  have hgb : (TrendPattern.optimize (TrendPattern.optimize q)).dimensionality.group_by
      = (TrendPattern.optimize q).dimensionality.group_by := by
    rw [trend_group_by (TrendPattern.optimize q), if_pos (trend_group_by_has_time q)]
  have hsort : (TrendPattern.optimize (TrendPattern.optimize q)).sorting
      = (TrendPattern.optimize q).sorting := by
    rw [trend_sorting (TrendPattern.optimize q)]
    cases hs : (TrendPattern.optimize q).sorting with
    | some s => rfl
    | none =>
      have hsor : (match q.sorting with
          | some s => some s
          | Option.none =>
            match (TrendPattern.optimize q).dimensionality.group_by.find?
                (fun dim => timeDimensions.contains dim) with
            | some time_dim =>
              some { order_by := time_dim, direction := "ASC", limit := Option.none }
            | Option.none => Option.none) = Option.none :=
        (trend_sorting q).symm.trans hs
      cases hqs : q.sorting with
      | some s =>
        rw [hqs] at hsor
        exact absurd hsor (by simp)
      | none =>
        rw [hqs] at hsor
        rw [hgb]
        exact hsor
  refine semanticQuery_eq_of_fields rfl rfl rfl ?_ rfl rfl rfl rfl hsort rfl rfl rfl
  exact dimensionality_eq_of_fields hgb rfl

/-- Projection of the comparison block after comparison optimization. -/
lemma comparison_comparison (q : SemanticQuery) :
    (ComparisonPattern.optimize q).comparison
      = match q.comparison with
        | some c => some c
        | Option.none =>
          some { type := "period",
                 baseline :=
                   if occursIn (strLower q.time_context.window) "month" then "last_month"
                   else if occursIn (strLower q.time_context.window) "quarter" then "last_quarter"
                   else if occursIn (strLower q.time_context.window) "year" then "last_year"
                   else "previous_period",
                 metric_variant := "growth" } := rfl

lemma metricRequest_eq_of_fields {a b : MetricRequest}
    (h1 : a.primary_metric = b.primary_metric)
    (h2 : a.secondary_metrics = b.secondary_metrics)
    (h3 : a.metric_variant = b.metric_variant) : a = b := by
  cases a
  cases b
  simp_all

lemma comparison_optimize_idem (q : SemanticQuery) :
    ComparisonPattern.optimize (ComparisonPattern.optimize q)
      = ComparisonPattern.optimize q := by
  have hcomp : (ComparisonPattern.optimize (ComparisonPattern.optimize q)).comparison
      = (ComparisonPattern.optimize q).comparison := by
    rw [comparison_comparison (ComparisonPattern.optimize q)]
    cases hc : (ComparisonPattern.optimize q).comparison with
    | some c => rfl
    | none =>
      have hthis := (comparison_comparison q).symm.trans hc
      cases hqc : q.comparison with
      | some c =>
        rw [hqc] at hthis
        exact absurd hthis (by simp)
      | none =>
        rw [hqc] at hthis
        exact absurd hthis (by simp)
  have hvar2 : (ComparisonPattern.optimize
        (ComparisonPattern.optimize q)).metric_request.metric_variant
      = (ComparisonPattern.optimize q).metric_request.metric_variant := by
    have hv1 : (ComparisonPattern.optimize q).metric_request.metric_variant
        = if q.metric_request.metric_variant = "absolute" then "growth"
          else q.metric_request.metric_variant := rfl
    have hv2 : (ComparisonPattern.optimize
          (ComparisonPattern.optimize q)).metric_request.metric_variant
        = if (ComparisonPattern.optimize q).metric_request.metric_variant = "absolute"
          then "growth"
          else (ComparisonPattern.optimize q).metric_request.metric_variant := rfl
    rw [hv2, hv1]
    by_cases h : q.metric_request.metric_variant = "absolute"
    · rw [if_pos h]
      rfl
    · rw [if_neg h, if_neg h]
  have hmv : (ComparisonPattern.optimize
        (ComparisonPattern.optimize q)).metric_request
      = (ComparisonPattern.optimize q).metric_request :=
    metricRequest_eq_of_fields rfl rfl hvar2
  refine semanticQuery_eq_of_fields rfl rfl hmv rfl rfl rfl hcomp rfl rfl rfl rfl rfl

/-- The limit normalization applied by ranking optimization. -/
def rankLimit : Option Int → Option Int
  | Option.none => some 10
  | some l => if l = 0 then some 10 else if l > 100 then some 100 else some l

lemma rankLimit_idem (x : Option Int) : rankLimit (rankLimit x) = rankLimit x := by
  cases x with
  | none => rfl
  | some l =>
    unfold rankLimit
    by_cases h0 : l = 0
    · simp [h0]
    · by_cases h100 : l > 100
      · simp [h0, h100]
      · simp [h0, h100]

lemma ranking_sorting (q : SemanticQuery) :
    (RankingPattern.optimize q).sorting
      = match q.sorting with
        | Option.none =>
          some { order_by := q.metric_request.primary_metric,
                 direction := "DESC", limit := some 10 }
        | some s => some { s with limit := rankLimit s.limit } := by
  unfold RankingPattern.optimize rankLimit
  cases q.sorting <;> rfl

lemma ranking_optimize_idem (q : SemanticQuery) :
    RankingPattern.optimize (RankingPattern.optimize q) = RankingPattern.optimize q := by
  have hsort : (RankingPattern.optimize (RankingPattern.optimize q)).sorting
      = (RankingPattern.optimize q).sorting := by
    rw [ranking_sorting (RankingPattern.optimize q), ranking_sorting q]
    cases hs : q.sorting with
    | none => rfl
    | some s =>
      dsimp only
      rw [rankLimit_idem]
  have hrest : ∀ p : SemanticQuery,
      (RankingPattern.optimize p).schema_version = p.schema_version
      ∧ (RankingPattern.optimize p).intent = p.intent
      ∧ (RankingPattern.optimize p).metric_request = p.metric_request
      ∧ (RankingPattern.optimize p).dimensionality = p.dimensionality
      ∧ (RankingPattern.optimize p).time_context = p.time_context
      ∧ (RankingPattern.optimize p).filters = p.filters
      ∧ (RankingPattern.optimize p).comparison = p.comparison
      ∧ (RankingPattern.optimize p).diagnostics = p.diagnostics
      ∧ (RankingPattern.optimize p).result_shape = p.result_shape
      ∧ (RankingPattern.optimize p).confidence = p.confidence
      ∧ (RankingPattern.optimize p).original_question = p.original_question := by
    intro p
    unfold RankingPattern.optimize
    cases p.sorting <;> exact ⟨rfl, rfl, rfl, rfl, rfl, rfl, rfl, rfl, rfl, rfl, rfl⟩
  obtain ⟨e1, e2, e3, e4, e5, e6, e7, e8, e9, e10, e11⟩ := hrest (RankingPattern.optimize q)
  exact semanticQuery_eq_of_fields e1 e2 e3 e4 e5 e6 e7 e8 hsort e9 e10 e11

lemma diagnostic_diagnostics (q : SemanticQuery) :
    (DiagnosticPattern.optimize q).diagnostics
      = match q.diagnostics with
        | Option.none =>
          some { enabled := true, diagnostic_type := "contribution",
                 dimensions := defaultDiagnosticDimensions, threshold := 1/20 }
        | some d =>
          some
            { d with
              enabled := true,
              dimensions :=
                if d.dimensions.isEmpty then defaultDiagnosticDimensions
                else d.dimensions } := by
  unfold DiagnosticPattern.optimize
  cases q.diagnostics <;> rfl

lemma diagnostic_optimize_idem (q : SemanticQuery) :
    DiagnosticPattern.optimize (DiagnosticPattern.optimize q)
      = DiagnosticPattern.optimize q := by
  have hdiag : (DiagnosticPattern.optimize (DiagnosticPattern.optimize q)).diagnostics
      = (DiagnosticPattern.optimize q).diagnostics := by
    rw [diagnostic_diagnostics (DiagnosticPattern.optimize q), diagnostic_diagnostics q]
    cases hd : q.diagnostics with
    | none => rfl
    | some d =>
      have hne : (if d.dimensions.isEmpty then defaultDiagnosticDimensions
          else d.dimensions).isEmpty = false := by
        cases hb : d.dimensions.isEmpty with
        | true => rfl
        | false => exact hb
      dsimp only
      simp [hne]
      intro hcontra
      exfalso
      by_cases hl : d.dimensions = []
      · rw [if_pos hl] at hcontra
        exact absurd hcontra (by decide)
      · rw [if_neg hl] at hcontra
        exact hl hcontra
  have hrest : ∀ p : SemanticQuery,
      (DiagnosticPattern.optimize p).schema_version = p.schema_version
      ∧ (DiagnosticPattern.optimize p).intent = p.intent
      ∧ (DiagnosticPattern.optimize p).metric_request = p.metric_request
      ∧ (DiagnosticPattern.optimize p).dimensionality = p.dimensionality
      ∧ (DiagnosticPattern.optimize p).time_context = p.time_context
      ∧ (DiagnosticPattern.optimize p).filters = p.filters
      ∧ (DiagnosticPattern.optimize p).comparison = p.comparison
      ∧ (DiagnosticPattern.optimize p).sorting = p.sorting
      ∧ (DiagnosticPattern.optimize p).result_shape = p.result_shape
      ∧ (DiagnosticPattern.optimize p).confidence = p.confidence
      ∧ (DiagnosticPattern.optimize p).original_question = p.original_question := by
    intro p
    unfold DiagnosticPattern.optimize
    cases p.diagnostics <;> exact ⟨rfl, rfl, rfl, rfl, rfl, rfl, rfl, rfl, rfl, rfl, rfl⟩
  obtain ⟨e1, e2, e3, e4, e5, e6, e7, e8, e9, e10, e11⟩ := hrest (DiagnosticPattern.optimize q)
  exact semanticQuery_eq_of_fields e1 e2 e3 e4 e5 e6 e7 hdiag e8 e9 e10 e11

lemma ranking_intent (q : SemanticQuery) :
    (RankingPattern.optimize q).intent = q.intent := by
  unfold RankingPattern.optimize
  cases q.sorting <;> rfl

lemma diagnostic_intent (q : SemanticQuery) :
    (DiagnosticPattern.optimize q).intent = q.intent := by
  unfold DiagnosticPattern.optimize
  cases q.diagnostics <;> rfl

lemma optimizeQuery_idem (q : SemanticQuery) :
    PatternRegistry.optimizeQuery (PatternRegistry.optimizeQuery q)
      = PatternRegistry.optimizeQuery q := by
  cases hq : q.intent with
  | trend =>
    have h1 : PatternRegistry.optimizeQuery q = TrendPattern.optimize q := by
      unfold PatternRegistry.optimizeQuery
      rw [hq]
    have h2 : PatternRegistry.optimizeQuery (TrendPattern.optimize q)
        = TrendPattern.optimize (TrendPattern.optimize q) := by
      unfold PatternRegistry.optimizeQuery
      rw [show (TrendPattern.optimize q).intent = q.intent from rfl, hq]
    rw [h1, h2, trend_optimize_idem]
  | comparison =>
    have h1 : PatternRegistry.optimizeQuery q = ComparisonPattern.optimize q := by
      unfold PatternRegistry.optimizeQuery
      rw [hq]
    have h2 : PatternRegistry.optimizeQuery (ComparisonPattern.optimize q)
        = ComparisonPattern.optimize (ComparisonPattern.optimize q) := by
      unfold PatternRegistry.optimizeQuery
      rw [show (ComparisonPattern.optimize q).intent = q.intent from rfl, hq]
    rw [h1, h2, comparison_optimize_idem]
  | ranking =>
    have h1 : PatternRegistry.optimizeQuery q = RankingPattern.optimize q := by
      unfold PatternRegistry.optimizeQuery
      rw [hq]
    have h2 : PatternRegistry.optimizeQuery (RankingPattern.optimize q)
        = RankingPattern.optimize (RankingPattern.optimize q) := by
      unfold PatternRegistry.optimizeQuery
      rw [ranking_intent q, hq]
    rw [h1, h2, ranking_optimize_idem]
  | diagnostic =>
    have h1 : PatternRegistry.optimizeQuery q = DiagnosticPattern.optimize q := by
      unfold PatternRegistry.optimizeQuery
      rw [hq]
    have h2 : PatternRegistry.optimizeQuery (DiagnosticPattern.optimize q)
        = DiagnosticPattern.optimize (DiagnosticPattern.optimize q) := by
      unfold PatternRegistry.optimizeQuery
      rw [diagnostic_intent q, hq]
    rw [h1, h2, diagnostic_optimize_idem]
  | snapshot =>
    have h1 : PatternRegistry.optimizeQuery q = q := by
      unfold PatternRegistry.optimizeQuery
      rw [hq]
      rfl
    rw [h1, h1]

/-- C7: every pattern's `optimize` is idempotent, and so is the registry's
intent-dispatched optimization; in particular a second trend optimization
inserts no second time dimension and leaves the sorting unchanged. -/
theorem C7_pattern_idempotence (q : SemanticQuery) :
    TrendPattern.optimize (TrendPattern.optimize q) = TrendPattern.optimize q
    ∧ ComparisonPattern.optimize (ComparisonPattern.optimize q)
        = ComparisonPattern.optimize q
    ∧ RankingPattern.optimize (RankingPattern.optimize q) = RankingPattern.optimize q
    ∧ DiagnosticPattern.optimize (DiagnosticPattern.optimize q)
        = DiagnosticPattern.optimize q
    ∧ SnapshotPattern.optimize (SnapshotPattern.optimize q) = SnapshotPattern.optimize q
    ∧ PatternRegistry.optimizeQuery (PatternRegistry.optimizeQuery q)
        = PatternRegistry.optimizeQuery q :=
  ⟨trend_optimize_idem q, comparison_optimize_idem q, ranking_optimize_idem q,
   diagnostic_optimize_idem q, rfl, optimizeQuery_idem q⟩

/-! ## C8: trend queries default to chronological ORDER BY -/

lemma resolve_grain_isSome (g : String) :
    (resolveDimensionAttribute (grainTimeDimension g)).isSome = true := by
  unfold grainTimeDimension
  split_ifs <;> decide

/-- After trend optimization of a sorting-less query, the sorting is
ascending on the first time dimension of the optimized group-by. -/
lemma trend_sorting_of_none {q : SemanticQuery} (h2 : q.sorting = Option.none) :
    ∃ td, (TrendPattern.optimize q).sorting
        = some { order_by := td, direction := "ASC", limit := Option.none }
      ∧ td ∈ timeDimensions
      ∧ td ∈ (TrendPattern.optimize q).dimensionality.group_by
      ∧ (td ∈ q.dimensionality.group_by ∨ td = grainTimeDimension q.time_context.grain) := by
  have hfs : ((TrendPattern.optimize q).dimensionality.group_by.find?
      (fun dim => timeDimensions.contains dim)).isSome = true := by
    rw [List.find?_isSome]
    have h := trend_group_by_has_time q
    rw [List.any_eq_true] at h
    obtain ⟨d, hd1, hd2⟩ := h
    refine ⟨d, ?_, ?_⟩
    · simpa [List.contains, List.elem_iff] using hd2
    · simpa [List.contains, List.elem_iff] using hd1
  cases hf : (TrendPattern.optimize q).dimensionality.group_by.find?
      (fun dim => timeDimensions.contains dim) with
  | none => rw [hf] at hfs; cases hfs
  | some td =>
    have hsort : (TrendPattern.optimize q).sorting
        = some { order_by := td, direction := "ASC", limit := Option.none } := by
      rw [trend_sorting q, h2, hf]
    have hp : timeDimensions.contains td = true := List.find?_some hf
    have htd : td ∈ timeDimensions := by
      simpa [List.contains, List.elem_iff] using hp
    have hmem : td ∈ (TrendPattern.optimize q).dimensionality.group_by :=
      List.mem_of_find?_eq_some hf
    refine ⟨td, hsort, htd, hmem, ?_⟩
    rw [trend_group_by] at hmem
    by_cases h : timeDimensions.any (fun dim => q.dimensionality.group_by.contains dim) = true
    · rw [if_pos h] at hmem
      exact Or.inl hmem
    · rw [if_neg h] at hmem
      rcases List.mem_cons.mp hmem with heq | hmem'
      · exact Or.inr heq
      · exact Or.inl hmem'

/-- `_build_order_by` on a query sorted ascending by a resolvable group-by
dimension. -/
lemma buildOrderBy_of_sorting_dim {q : SemanticQuery} {td col : String}
    (hs : q.sorting = some { order_by := td, direction := "ASC", limit := Option.none })
    (hmem : td ∈ q.dimensionality.group_by)
    (hres : resolveDimensionAttribute td = some col) :
    buildOrderBy q
      = some { columns := [(ColOrRaw.colRef (SqlExpr.col col Option.none Option.none), "ASC")] } := by
  unfold buildOrderBy
  rw [hs]
  dsimp only
  rw [if_pos (by simpa [List.contains, List.elem_iff] using hmem), hres]

/-- A successful compile assembles its ORDER BY from `_build_order_by`. -/
lemma buildQuery_ok_proj {sl : SemanticLayer} {q : SemanticQuery} {cq : Query}
    (h : buildQuery sl q = .ok cq) :
    cq.order_by = buildOrderBy q := by
  unfold buildQuery at h
  cases hm : sl.getMetric q.metric_request.primary_metric with
  | none => rw [hm] at h; cases h
  | some metric =>
    rw [hm] at h
    dsimp only at h
    cases hw : buildWhere q metric with
    | error e => rw [hw] at h; cases h
    | ok w =>
      rw [hw] at h
      dsimp only at h
      split at h
      · cases h
        rfl
      · cases h

/-- C8 (amended): for a trend query with no explicit sorting, whenever the
time-grain dimensions present in its group-by resolve in the
dimension-attribute mapping (true of every validator attribute name) and
compilation succeeds, the compiled query orders ascending on the resolved
time dimension — a single ORDER BY entry `(resolved column, ASC)`. -/
theorem C8_trend_chronological_order (sl : SemanticLayer) (q : SemanticQuery)
    (h1 : q.intent = IntentType.trend) (h2 : q.sorting = Option.none)
    (h3 : ∀ d ∈ q.dimensionality.group_by, d ∈ timeDimensions →
      (resolveDimensionAttribute d).isSome = true)
    (h4 : (buildQuery sl (PatternRegistry.optimizeQuery q)).isOk = true) :
    ∃ td col cq, td ∈ timeDimensions
      ∧ resolveDimensionAttribute td = some col
      ∧ (PatternRegistry.optimizeQuery q).sorting
          = some { order_by := td, direction := "ASC", limit := Option.none }
      ∧ buildQuery sl (PatternRegistry.optimizeQuery q) = .ok cq
      ∧ cq.order_by
          = some { columns := [(ColOrRaw.colRef (SqlExpr.col col Option.none Option.none), "ASC")] } := by
  have hopt : PatternRegistry.optimizeQuery q = TrendPattern.optimize q := by
    unfold PatternRegistry.optimizeQuery
    rw [h1]
  rw [hopt] at h4 ⊢
  obtain ⟨td, hsort, htd, hmem, hsource⟩ := trend_sorting_of_none h2
  have hres : ∃ col, resolveDimensionAttribute td = some col := by
    rcases hsource with hin | hgr
    · have hsome := h3 td hin htd
      cases hcase : resolveDimensionAttribute td with
      | none => rw [hcase] at hsome; cases hsome
      | some col => exact ⟨col, rfl⟩
    · subst hgr
      have hsome := resolve_grain_isSome q.time_context.grain
      cases hcase : resolveDimensionAttribute (grainTimeDimension q.time_context.grain) with
      | none => rw [hcase] at hsome; cases hsome
      | some col => exact ⟨col, rfl⟩
  obtain ⟨col, hcol⟩ := hres
  cases hb : buildQuery sl (TrendPattern.optimize q) with
  | error e => rw [hb] at h4; cases h4
  | ok cq =>
    refine ⟨td, col, cq, htd, hcol, hsort, rfl, ?_⟩
    rw [buildQuery_ok_proj hb]
    exact buildOrderBy_of_sorting_dim hsort hmem hcol

/-- A trend query grouped by `fiscal_month`: a time dimension recognized by
the trend pattern but absent from the dimension-attribute mapping. -/
def qFiscalMonth : SemanticQuery :=
  { intent := IntentType.trend,
    metric_request := { primary_metric := "sales" },
    dimensionality := { group_by := ["fiscal_month"] },
    time_context := { window := "mtd", grain := "month" },
    original_question := "monthly trend" }

set_option maxRecDepth 4000 in
/-- C8 counterexample: a trend query with no sorting whose group-by holds
`fiscal_month` — in the pattern's time-dimension list but unknown to
`_resolve_dimension_attribute` — compiles with *no* ORDER BY clause at all,
refuting the unconditional claim. -/
theorem C8_counterexample :
    qFiscalMonth.intent = IntentType.trend
    ∧ qFiscalMonth.sorting = Option.none
    ∧ "fiscal_month" ∈ timeDimensions
    ∧ resolveDimensionAttribute "fiscal_month" = Option.none
    ∧ (buildQuery slSales (PatternRegistry.optimizeQuery qFiscalMonth)).map
        (fun cq => cq.order_by)
      = .ok Option.none :=
  ⟨rfl, rfl, by decide, rfl, rfl⟩

/-- A trend query with no sorting and one non-time group-by dimension. -/
def qTrendBare : SemanticQuery :=
  { intent := IntentType.trend,
    metric_request := { primary_metric := "sales" },
    dimensionality := { group_by := ["brand_name"] },
    time_context := { window := "last_4_weeks", grain := "week" },
    original_question := "sales trend by brand" }

set_option maxRecDepth 4000 in
/-- C8 witness: the theorem applied to a concrete sorting-less trend query
(compiled ORDER BY is `d.week ASC`). -/
theorem C8_witness :
    qTrendBare.intent = IntentType.trend
    ∧ qTrendBare.sorting = Option.none
    ∧ (buildQuery slSales (PatternRegistry.optimizeQuery qTrendBare)).isOk = true
    ∧ (∃ td col cq, td ∈ timeDimensions
        ∧ resolveDimensionAttribute td = some col
        ∧ (PatternRegistry.optimizeQuery qTrendBare).sorting
            = some { order_by := td, direction := "ASC", limit := Option.none }
        ∧ buildQuery slSales (PatternRegistry.optimizeQuery qTrendBare) = .ok cq
        ∧ cq.order_by
            = some { columns := [(ColOrRaw.colRef (SqlExpr.col col Option.none Option.none), "ASC")] }) :=
  ⟨rfl, rfl, by decide,
    C8_trend_chronological_order slSales qTrendBare rfl rfl (by decide) (by decide)⟩

/-! ## C9: diagnostic workflows are all-or-nothing -/

lemma executeSingle_isError {sl : SemanticLayer}
    {executor : String → Except String ExecResult} {sq : SemanticQuery}
    (hfail : ∀ ast, buildQuery sl sq = .ok ast → (executor ast.toSql).isOk = false) :
    (executeSingle sl executor sq).isOk = false := by
  unfold executeSingle
  cases hb : buildQuery sl sq with
  | error e => rfl
  | ok ast =>
    have hex := hfail ast hb
    dsimp only
    cases hexe : executor ast.toSql with
    | error e => rfl
    | ok r => rw [hexe] at hex; cases hex

lemma runSubQueries_error_of_mem {sl : SemanticLayer}
    {executor : String → Except String ExecResult}
    {l : List (String × SemanticQuery)} {nm : String} {sq : SemanticQuery}
    (hmem : (nm, sq) ∈ l)
    (hfail : (executeSingle sl executor sq).isOk = false) :
    ∃ e, runSubQueries sl executor l = .error e := by
  induction l with
  | nil => cases hmem
  | cons hd tl ih =>
    obtain ⟨hdn, hdq⟩ := hd
    rcases List.mem_cons.mp hmem with heq | hmem'
    · obtain ⟨h1, h2⟩ := Prod.mk.injEq .. ▸ heq
      subst h1
      subst h2
      cases hex : executeSingle sl executor sq with
      | error e =>
        exact ⟨e, by unfold runSubQueries; rw [hex]⟩
      | ok r => rw [hex] at hfail; cases hfail
    · cases hex : executeSingle sl executor hdq with
      | error e =>
        exact ⟨e, by unfold runSubQueries; rw [hex]⟩
      | ok r =>
        obtain ⟨e, he⟩ := ih hmem'
        exact ⟨e, by unfold runSubQueries; rw [hex, he]⟩

/-- C9: if the injected executor fails on the compiled SQL of any one of the
1+N diagnostic sub-queries, the whole diagnostic execution returns an error:
no result object — no partial `analysis`, `sub_queries` map, insights or
recommendations — is produced for the sub-queries that did succeed. -/
theorem C9_diagnostic_all_or_nothing (sl : SemanticLayer)
    (executor : String → Except String ExecResult) (q : SemanticQuery)
    (nm : String) (sq : SemanticQuery)
    (hmem : (nm, sq) ∈ diagnosticSubQueries q)
    (hfail : ∀ ast, buildQuery sl sq = .ok ast → (executor ast.toSql).isOk = false) :
    ∃ e, executeDiagnostic sl executor q = .error e := by
  obtain ⟨e, he⟩ := runSubQueries_error_of_mem hmem (executeSingle_isError hfail)
  refine ⟨e, ?_⟩
  unfold executeDiagnostic
  dsimp only
  rw [he]

/-- A diagnostic query with default diagnostic dimensions. -/
def qDiagnostic : SemanticQuery :=
  { intent := IntentType.diagnostic,
    metric_request := { primary_metric := "sales" },
    time_context := { window := "mtd", grain := "week" },
    original_question := "why did sales drop" }

/-- An executor whose every execution fails. -/
def failingExecutor : String → Except String ExecResult :=
  fun _ => .error "database unavailable"

/-- The trend-confirmation sub-query the orchestrator derives from
`qDiagnostic`. -/
def qDiagnosticTrendSub : SemanticQuery :=
  { qDiagnostic with
    intent := IntentType.trend,
    dimensionality := { qDiagnostic.dimensionality with group_by := ["week"] },
    sorting := some { order_by := "week", direction := "ASC", limit := Option.none } }

set_option maxRecDepth 4000 in
/-- C9 witness: the theorem applied to the concrete diagnostic query and an
executor that fails on every sub-query. -/
theorem C9_witness :
    ("trend_confirmation", qDiagnosticTrendSub) ∈ diagnosticSubQueries qDiagnostic
    ∧ (∃ e, executeDiagnostic slSales failingExecutor qDiagnostic = .error e) :=
  ⟨by decide,
    C9_diagnostic_all_or_nothing slSales failingExecutor qDiagnostic
      "trend_confirmation" qDiagnosticTrendSub (by decide) (fun _ _ => rfl)⟩

end ConvAI
